import Mathlib

/-!
Verification of the Lumen core: SQL safety validator, trend-extrapolation SQL
rewriter, chart-spec validation / auto-detection, theme merge, and the
ask-question orchestrator, shallowly embedded from the Python sources
(`lumen/core.py`, `lumen/agent/sql_validator.py`, `lumen/whatif/trend.py`,
`lumen/viz/theme.py`, `lumen/viz/auto_detect.py`, `lumen/viz/validator.py`,
`lumen/agent/agent.py`).

External collaborators (the pglast SQL parser, the LLM planner/narrator and
the asyncpg executor) are modelled as explicit function parameters of the
embedded code; everything written in the repository itself is translated
directly.
-/

set_option maxHeartbeats 1000000
set_option maxRecDepth 8000

namespace Lumen

/-! ## `lumen/core.py` — Severity, Diag, Result -/

inductive Severity where
  | error
  | warning
  | info
deriving DecidableEq, Repr

/-- A structured diagnostic message (`core.py` `Diag`). -/
structure Diag where
  severity : Severity
  code : String
  message : String
  hint : Option String
deriving DecidableEq, Repr

/-- Result container pairing output with diagnostics (`core.py` `Result`). -/
structure Result (α : Type) where
  data : Option α
  diagnostics : List Diag
deriving Repr

def Result.empty {α : Type} : Result α := ⟨none, []⟩

def Result.has_errors {α : Type} (r : Result α) : Bool :=
  r.diagnostics.any (fun d => d.severity = Severity.error)

def Result.ok {α : Type} (r : Result α) : Bool :=
  !r.has_errors

/-- `Result.error`: append an error diagnostic (mutation modelled functionally). -/
def Result.err {α : Type} (r : Result α) (code message : String) (hint : Option String) :
    Result α :=
  { r with diagnostics := r.diagnostics ++ [⟨Severity.error, code, message, hint⟩] }

/-- `Result.warning`: append a warning diagnostic. -/
def Result.warn {α : Type} (r : Result α) (code message : String) (hint : Option String) :
    Result α :=
  { r with diagnostics := r.diagnostics ++ [⟨Severity.warning, code, message, hint⟩] }

/-! ## `lumen/agent/sql_validator.py`

The pglast parse tree is modelled as a rose tree of nodes carrying the
runtime type name (`type(node).__name__`) that `_ForbiddenNodeChecker`
compares against the deny-list.  `pglast.parse_sql` is an external library
call; it is passed in as a function `parse` returning either a parse error
or the list of top-level statements (the `RawStmt` wrappers are omitted:
their tag is never on the deny-list, so they contribute nothing to the
walk). -/

inductive Node where
  | mk (tag : String) (children : List Node)

def Node.tag : Node → String
  | .mk t _ => t

def _FORBIDDEN_NODE_TAGS : List String :=
  ["InsertStmt", "UpdateStmt", "DeleteStmt", "CreateStmt", "DropStmt",
   "AlterTableStmt", "TruncateStmt", "GrantStmt", "RevokeStmt",
   "CreateFunctionStmt", "CreateRoleStmt", "CopyStmt", "CreateSchemaStmt",
   "CreateTableAsStmt"]

mutual

/-- `_ForbiddenNodeChecker.visit` on one subtree: pre-order collection of
every node whose runtime tag is on the deny-list. -/
def forbiddenIn : Node → List String
  | .mk t cs => (if t ∈ _FORBIDDEN_NODE_TAGS then [t] else []) ++ forbiddenInList cs

def forbiddenInList : List Node → List String
  | [] => []
  | c :: cs => forbiddenIn c ++ forbiddenInList cs

end

/-- `checker(stmts)`: walk the entire parse result. -/
def _ForbiddenNodeChecker (stmts : List Node) : List String :=
  forbiddenInList stmts

/-- Python's `str.isspace` character class as used by `str.strip()`. -/
def pyIsSpace (c : Char) : Bool :=
  c = ' ' || c = '\t' || c = '\n' || c = '\r' || c = '\x0b' || c = '\x0c'

/-- Python `sql.strip()`: remove leading and trailing whitespace. -/
def pyStrip (s : String) : String :=
  String.mk (((s.toList.dropWhile pyIsSpace).reverse.dropWhile pyIsSpace).reverse)

/-- `validate_sql` from `sql_validator.py`, with the pglast parser passed in
as the function `parse`. -/
def validate_sql (parse : String → Except String (List Node)) (sql : String) :
    Result String :=
  match parse sql with
  | Except.error e =>
      Result.err Result.empty "SQL_PARSE_ERROR" ("SQL parse error: " ++ e) none
  | Except.ok stmts =>
      match stmts with
      | [top_stmt] =>
          if Node.tag top_stmt ≠ "SelectStmt" then
            Result.err Result.empty "VALIDATION_ERROR"
              ("Only SELECT statements allowed, got " ++ Node.tag top_stmt) none
          else
            let checker := _ForbiddenNodeChecker stmts
            let result := checker.foldl
              (fun r tag =>
                Result.err r "VALIDATION_ERROR" ("Forbidden statement type: " ++ tag) none)
              Result.empty
            if result.ok then { result with data := some (pyStrip sql) } else result
      | _ =>
          Result.err Result.empty "VALIDATION_ERROR"
            ("Expected 1 statement, got " ++ toString stmts.length) none

/-! ## `lumen/whatif/trend.py` — trend-extrapolation SQL rewriter -/

def _VALID_INTERVALS : List String := ["day", "week", "month", "quarter", "year"]

def _MAX_PERIODS : Int := 24

/-- `TrendParams` carries the raw field values handed to `build_trend_sql`
(the pydantic `Field(ge=1, le=24)` bound on `periods_ahead` lives on the
model constructor and is modelled at the construction site in the agent). -/
structure TrendParams where
  time_field : String
  measure : String
  periods_ahead : Int
  period_interval : String

structure TrendSQL where
  sql : String
  baseline_sql : String
  time_field : String
  measure : String
  periods_ahead : Int
  period_interval : String

/-- Python `sorted(_VALID_INTERVALS)`, used in the interval hint. -/
def _sortedIntervals : List String := ["day", "month", "quarter", "week", "year"]

/-- Concatenation of adjacent f-string pieces (the parenthesized f-string
sequence the source builds the SQL from). -/
def strJoin : List String → String
  | [] => ""
  | s :: rest => s ++ strJoin rest

/-- `EXTRACT(EPOCH FROM "...")/86400.0` time-axis expression (`epoch_expr`). -/
def _epoch_expr (time_col : String) : String :=
  "EXTRACT(EPOCH FROM \x22" ++ time_col ++ "\x22::timestamp) / 86400.0"

/-- `m_cast`: the measure cast to double precision. -/
def _m_cast (measure_col : String) : String :=
  "\x22" ++ measure_col ++ "\x22::double precision"

/-- `future_ts`: timestamp of the k-th future period. -/
def _future_ts (interval : String) : String :=
  "lp.max_time + (gs.n * INTERVAL '1 " ++ interval ++ "')"

/-- `future_epoch`. -/
def _future_epoch (interval : String) : String :=
  "EXTRACT(EPOCH FROM (" ++ _future_ts interval ++ ")::timestamp) / 86400.0"

/-- `bridge_epoch`. -/
def _bridge_epoch : String :=
  "EXTRACT(EPOCH FROM lp.max_time::timestamp) / 86400.0"

/-- The generated trend SQL: the f-string template of `build_trend_sql`,
one list entry per f-string piece of the source. -/
def trendSqlText (baseline_sql time_col measure_col interval : String)
    (periods : Int) : String :=
  strJoin
    ["WITH baseline AS (SELECT * FROM (" ++ baseline_sql ++ ") AS _b),\n",
     "regression AS (\n",
     "  SELECT\n",
     "    regr_slope(" ++ _m_cast measure_col ++ ", " ++ _epoch_expr time_col
       ++ ") AS slope,\n",
     "    regr_intercept(" ++ _m_cast measure_col ++ ", " ++ _epoch_expr time_col
       ++ ") AS intercept,\n",
     "    regr_r2(" ++ _m_cast measure_col ++ ", " ++ _epoch_expr time_col
       ++ ") AS r_squared,\n",
     "    COUNT(*) AS n_points\n",
     "  FROM baseline\n",
     "  WHERE \x22" ++ measure_col ++ "\x22 IS NOT NULL AND \x22" ++ time_col
       ++ "\x22 IS NOT NULL\n",
     "),\n",
     "actuals AS (\n",
     "  SELECT\n",
     "    \x22" ++ time_col ++ "\x22,\n",
     "    \x22" ++ measure_col ++ "\x22,\n",
     "    'actual' AS period_type\n",
     "  FROM baseline\n",
     "),\n",
     "last_period AS (\n",
     "  SELECT MAX(\x22" ++ time_col ++ "\x22::timestamp) AS max_time FROM baseline\n",
     "),\n",
     "bridge AS (\n",
     "  SELECT\n",
     "    lp.max_time AS \x22" ++ time_col ++ "\x22,\n",
     "    r.slope * (" ++ _bridge_epoch ++ ") + r.intercept AS \x22" ++ measure_col
       ++ "\x22,\n",
     "    'projected' AS period_type\n",
     "  FROM last_period lp\n",
     "  CROSS JOIN regression r\n",
     "  WHERE lp.max_time IS NOT NULL\n",
     "),\n",
     "future_periods AS (\n",
     "  SELECT\n",
     "    (" ++ _future_ts interval ++ ")::timestamp AS \x22" ++ time_col ++ "\x22,\n",
     "    r.slope * (" ++ _future_epoch interval ++ ") + r.intercept AS \x22"
       ++ measure_col ++ "\x22,\n",
     "    'projected' AS period_type\n",
     "  FROM generate_series(1, " ++ toString periods ++ ") AS gs(n)\n",
     "  CROSS JOIN regression r\n",
     "  CROSS JOIN last_period lp\n",
     ")\n",
     "SELECT * FROM actuals\n",
     "UNION ALL\n",
     "SELECT * FROM bridge\n",
     "UNION ALL\n",
     "SELECT * FROM future_periods\n",
     "ORDER BY \x22" ++ time_col ++ "\x22"]

/-- `build_trend_sql` from `trend.py`: wrap baseline SQL with linear
regression and future period projection (an exact transcription of the
f-string template). -/
def build_trend_sql (baseline_sql : String) (params : TrendParams) : Result TrendSQL :=
  if params.period_interval ∉ _VALID_INTERVALS then
    Result.err Result.empty "TREND_INVALID_INTERVAL"
      ("Invalid period_interval '" ++ params.period_interval ++ "'")
      (some ("Must be one of: " ++ String.intercalate ", " _sortedIntervals))
  else if params.periods_ahead < 1 ∨ params.periods_ahead > _MAX_PERIODS then
    Result.err Result.empty "TREND_INVALID_PERIODS"
      ("periods_ahead must be 1-" ++ toString _MAX_PERIODS ++ ", got "
        ++ toString params.periods_ahead)
      none
  else
    { data := some
        ⟨trendSqlText baseline_sql params.time_field params.measure
           params.period_interval params.periods_ahead,
         baseline_sql, params.time_field, params.measure,
         params.periods_ahead, params.period_interval⟩,
      diagnostics := [] }

/-! ## Substring search helpers (for stating properties of generated SQL) -/

/-- `s` contains `sub` as a contiguous substring (stated on the character
lists). -/
def strContainsP (s sub : String) : Prop :=
  List.IsInfix sub.data s.data

/-- `s` ends with `suffix` (stated on the character lists). -/
def strEndsWith (s suffix : String) : Prop :=
  List.IsSuffix suffix.data s.data

/-- Count the start positions at which `needle` occurs in `s` (as char
lists); for a nonempty needle this is the number of its occurrences. -/
def countOccAux (needle : List Char) : List Char → Nat
  | [] => 0
  | c :: rest => (if needle.isPrefixOf (c :: rest) then 1 else 0) + countOccAux needle rest

def strOccurrences (needle s : String) : Nat :=
  countOccAux needle.data s.data

/-! ## JSON values and Python dict semantics

Chart specs and theme configuration are JSON-shaped Python dicts.  A dict
is modelled as an association list without duplicate keys (insertion
order preserved, as in Python); `dictSet` replaces in place or appends,
matching `d[k] = v`. -/

inductive JVal where
  | null
  | str (s : String)
  | num (q : Rat)
  | bool (b : Bool)
  | arr (xs : List JVal)
  | obj (kvs : List (String × JVal))

abbrev PyDict := List (String × JVal)

/-- `d.get(k)` / `d[k]` lookup (the unique binding of `k`; on a list with
duplicate keys, which no Python dict produces, the first). -/
def dictGet? {α : Type} : List (String × α) → String → Option α
  | [], _ => none
  | (k', v) :: rest, k => if k' = k then some v else dictGet? rest k

/-- `k in d`. -/
def dictContains {α : Type} : List (String × α) → String → Bool
  | [], _ => false
  | (k', _) :: rest, k => k' = k || dictContains rest k

/-- `d[k] = v`: replace the binding in place, or append if absent. -/
def dictSet {α : Type} : List (String × α) → String → α → List (String × α)
  | [], k, v => [(k, v)]
  | (k', v') :: rest, k, v =>
      if k' == k then (k, v) :: rest else (k', v') :: dictSet rest k v

/-- `d.update(other)`: apply `d[k] = v` for each entry of `other` in order. -/
def dictUpdate {α : Type} (d other : List (String × α)) : List (String × α) :=
  other.foldl (fun acc p => dictSet acc p.1 p.2) d

/-- The key sequence of a dict. -/
def dictKeys {α : Type} (d : List (String × α)) : List String := d.map Prod.fst

/-- `spec.get(k, default)` returning `None` (null) for an absent key, the
way `dict.get` with no default does. -/
def pyGet (d : PyDict) (k : String) : JVal :=
  (dictGet? d k).getD JVal.null

/-- Python truthiness of a JSON value. -/
def jvTruthy : JVal → Bool
  | .null => false
  | .str s => !(s == "")
  | .num q => !(q == 0)
  | .bool b => b
  | .arr xs => !xs.isEmpty
  | .obj kvs => !kvs.isEmpty

/-- Membership of a JSON value in a list/set of strings: Python `x in s`
is `False` whenever `x` is not a string. -/
def jvInStrList (v : JVal) (l : List String) : Bool :=
  match v with
  | .str s => l.contains s
  | _ => false

/-- Python `str()` of a JSON value, used only inside diagnostic messages
(exact for strings and integers, the cases that occur). -/
def jvStr : JVal → String
  | .null => "None"
  | .str s => s
  | .num q => if q.den == 1 then toString q.num else toString q
  | .bool b => if b then "True" else "False"
  | .arr _ => "[...]"
  | .obj _ => "\x7b...\x7d"

/-! ## `lumen/viz/theme.py` — Lumen Vega-Lite theme -/

def LUMEN_PALETTE : List String :=
  ["#3b5998", "#c67a3c", "#5a9e6f", "#8b6caf", "#c75a5a", "#4a9cc2", "#d4a843", "#7d7d7d"]

def _interFont : String := "Inter, system-ui, sans-serif"

/-- `LUMEN_THEME["config"]` transcribed entry by entry. -/
def LUMEN_THEME_config : PyDict :=
  [("font", .str _interFont),
   ("axis", .obj
     [("labelFont", .str _interFont),
      ("titleFont", .str _interFont),
      ("labelFontSize", .num 11),
      ("titleFontSize", .num 12),
      ("titleFontWeight", .num 600),
      ("gridDash", .arr [.num 3, .num 3]),
      ("gridColor", .str "#e0e0e0"),
      ("domainColor", .str "#ccc"),
      ("tickColor", .str "#ccc"),
      ("labelLimit", .num 150),
      ("titlePadding", .num 12)]),
   ("legend", .obj
     [("labelFont", .str _interFont),
      ("titleFont", .str _interFont),
      ("labelFontSize", .num 11),
      ("titleFontSize", .num 12)]),
   ("title", .obj
     [("font", .str _interFont),
      ("fontSize", .num 14),
      ("fontWeight", .num 600)]),
   ("bar", .obj [("cornerRadiusEnd", .num 3)]),
   ("line", .obj
     [("strokeWidth", .num 2),
      ("point", .obj [("size", .num 40)])]),
   ("point", .obj
     [("size", .num 60),
      ("opacity", .num (7 / 10))]),
   ("area", .obj
     [("opacity", .num (7 / 10)),
      ("line", .bool true)]),
   ("range", .obj [("category", .arr (LUMEN_PALETTE.map JVal.str))]),
   ("view", .obj [("strokeWidth", .num 0)]),
   ("padding", .obj [("row", .num 10), ("column", .num 10)]),
   ("background", .str "transparent")]

/-- `dict(x)`: copy for a dict, `TypeError` (none) for any other JSON value
(within JSON-shaped data only an array of pairs would also convert, which a
Vega-Lite spec never holds). -/
def pyDictOf : JVal → Option PyDict
  | .obj kvs => some kvs
  | _ => none

/-- One iteration of the theme-config merge loop in `apply_theme`. -/
def mergeConfigEntry (existing_config : PyDict) (kv : String × JVal) : PyDict :=
  if !(dictContains existing_config kv.1) then
    dictSet existing_config kv.1 kv.2
  else
    match kv.2, dictGet? existing_config kv.1 with
    | JVal.obj vkvs, some (JVal.obj ekvs) =>
        dictSet existing_config kv.1 (JVal.obj (dictUpdate vkvs ekvs))
    | _, _ => existing_config

/-- The binding one theme-config entry `(key, v)` leaves for `key` after
`mergeConfigEntry`, as a function of the existing binding: absent keys get
the theme value, nested dicts are merged with existing entries winning, and
any other existing value is kept. -/
def mergeOne (old : Option JVal) (v : JVal) : JVal :=
  match old with
  | none => v
  | some w =>
      match v, w with
      | JVal.obj vk, JVal.obj wk => JVal.obj (dictUpdate vk wk)
      | _, _ => w

/-- Key-distinctness of the dict under an `obj` value (trivially true for
any other value); every Python dict satisfies it. -/
def objKeysNodupB : JVal → Bool
  | .obj vk => (dictKeys vk).Nodup
  | _ => true

def DEFAULT_SCHEMA_URL : String := "https://vega.github.io/schema/vega-lite/v5.json"

/-- `apply_theme` from `theme.py`; `none` models the `TypeError` that
`dict(themed.get("config", {}))` raises when `config` is a non-dict value. -/
def apply_theme (spec : PyDict) : Option PyDict :=
  match pyDictOf ((dictGet? spec "config").getD (JVal.obj [])) with
  | none => none
  | some existing_config0 =>
      let existing_config := LUMEN_THEME_config.foldl mergeConfigEntry existing_config0
      let themed := dictSet spec "config" (JVal.obj existing_config)
      if !(dictContains themed "$schema") then
        some (dictSet themed "$schema" (JVal.str DEFAULT_SCHEMA_URL))
      else
        some themed

/-! ## `lumen/viz/validator.py` — structural chart-spec validation -/

def _VALID_MARK_TYPES : List String :=
  ["bar", "line", "point", "area", "rect", "text", "arc", "circle", "square", "tick"]

def _VALID_ENCODING_TYPES : List String :=
  ["nominal", "ordinal", "quantitative", "temporal"]

/-- Python `repr` of a list of strings, used in one diagnostic message. -/
def pyReprStrList (l : List String) : String :=
  "[" ++ String.intercalate ", " (l.map (fun c => "'" ++ c ++ "'")) ++ "]"

/-- Field/type checks for one encoding channel (loop body of
`_validate_single_spec`). -/
def checkChannel (columns : List String) (r : Result PyDict) (p : String × JVal) :
    Result PyDict :=
  match p.2 with
  | JVal.obj enc_def =>
      let field := pyGet enc_def "field"
      let r :=
        if jvTruthy field && !columns.isEmpty && !(jvInStrList field columns) then
          Result.err r "CHART_UNKNOWN_FIELD"
            ("Field '" ++ jvStr field ++ "' in " ++ p.1 ++ " not in result columns: "
              ++ pyReprStrList columns) none
        else r
      let enc_type := pyGet enc_def "type"
      if jvTruthy enc_type && !(jvInStrList enc_type _VALID_ENCODING_TYPES) then
        Result.err r "CHART_INVALID_TYPE"
          ("Invalid encoding type '" ++ jvStr enc_type ++ "' in " ++ p.1) none
      else r
  | _ => r

/-- `_validate_single_spec` from `validator.py`. -/
def _validate_single_spec (spec : PyDict) (columns : List String) : Result PyDict :=
  let result : Result PyDict := Result.empty
  let result :=
    match pyGet spec "mark" with
    | JVal.null => Result.err result "CHART_NO_MARK" "Chart spec missing 'mark'" none
    | mark =>
        let mark_type :=
          match mark with
          | JVal.str _ => mark
          | JVal.obj kvs => pyGet kvs "type"
          | _ => JVal.null
        if jvTruthy mark_type && !(jvInStrList mark_type _VALID_MARK_TYPES) then
          Result.err result "CHART_INVALID_MARK" ("Invalid mark type: " ++ jvStr mark_type)
            none
        else result
  match pyGet spec "encoding" with
  | JVal.null =>
      Result.err result "CHART_NO_ENCODING" "Chart spec missing 'encoding'" none
  | JVal.obj encoding => encoding.foldl (checkChannel columns) result
  | _ => Result.err result "CHART_INVALID_ENCODING" "Encoding must be an object" none

/-- Loop body of the layered-spec branch of `validate_chart_spec`. -/
def checkLayer (columns : List String) (r : Result PyDict) (p : Nat × JVal) :
    Result PyDict :=
  match p.2 with
  | JVal.obj layer =>
      { r with diagnostics := r.diagnostics ++ (_validate_single_spec layer columns).diagnostics }
  | _ =>
      Result.err r "CHART_INVALID_LAYER" ("Layer " ++ toString p.1 ++ " must be an object")
        none

/-- `validate_chart_spec` from `validator.py`. -/
def validate_chart_spec (spec : PyDict) (columns : List String) : Result PyDict :=
  if spec.isEmpty then
    Result.err Result.empty "CHART_EMPTY" "Chart spec is empty" none
  else
    match pyGet spec "layer" with
    | JVal.arr layers =>
        let result := layers.enum.foldl (checkLayer columns) Result.empty
        if result.ok then { result with data := some spec } else result
    | _ =>
        let single_result := _validate_single_spec spec columns
        let result : Result PyDict := { data := none, diagnostics := single_result.diagnostics }
        if result.ok then { result with data := some spec } else result

/-! ## `lumen/viz/auto_detect.py` — chart auto-detection -/

/-- The slice of `EnrichedColumn` that `auto_detect_chart` reads. -/
structure EnrichedColumn where
  name : String
  role : String

structure EnrichedTable where
  columns : List EnrichedColumn

structure EnrichedSchema where
  tables : List EnrichedTable

def _PRIMARY : String := "#3b5998"

/-- `_build_role_map`: flat column-name → role map, first occurrence wins. -/
def _build_role_map (enriched : EnrichedSchema) : List (String × String) :=
  enriched.tables.foldl
    (fun role_map table =>
      table.columns.foldl
        (fun role_map col =>
          if dictContains role_map col.name then role_map
          else role_map ++ [(col.name, col.role)])
        role_map)
    []

/-- Python `col_type.lower()` (character-wise lowering). -/
def pyLower (s : String) : String :=
  String.mk (s.data.map Char.toLower)

/-- `_infer_role_from_type`. -/
def _infer_role_from_type (col_type : String) : String :=
  let lower := pyLower col_type
  if lower ∈ ["date", "datetime", "timestamp"] then "time_dimension"
  else if lower ∈ ["int", "float", "decimal", "numeric", "int64", "float64"] then "numeric"
  else if lower ∈ ["str", "string", "text", "varchar"] then "categorical"
  else if lower ∈ ["bool", "boolean"] then "categorical"
  else "other"

/-- Classification accumulator of the column loop in `auto_detect_chart`. -/
structure ColClasses where
  time_cols : List String
  cat_cols : List String
  measure_cols : List String
  numeric_cols : List String

/-- Loop body of the classification loop (one `(col, col_type)` pair). -/
def classifyStep (role_map : List (String × String)) (acc : ColClasses)
    (p : String × String) : ColClasses :=
  let col := p.1
  let col_type := p.2
  let role := (dictGet? role_map col).getD (_infer_role_from_type col_type)
  if role == "time_dimension" then
    { acc with time_cols := acc.time_cols ++ [col] }
  else if role == "categorical" then
    { acc with cat_cols := acc.cat_cols ++ [col] }
  else if role == "measure_candidate" || role == "numeric" then
    { acc with measure_cols := acc.measure_cols ++ [col],
               numeric_cols := acc.numeric_cols ++ [col] }
  else if role == "key" then
    { acc with cat_cols := acc.cat_cols ++ [col] }
  else if col_type ∈ ["int", "float", "Decimal", "int64", "float64", "numeric"] then
    { acc with numeric_cols := acc.numeric_cols ++ [col],
               measure_cols := acc.measure_cols ++ [col] }
  else
    { acc with cat_cols := acc.cat_cols ++ [col] }

/-- Classification of result columns (`zip(columns, column_types, strict=True)`
assumes the two lists have equal length). -/
def classifyCols (columns column_types : List String)
    (role_map : List (String × String)) : ColClasses :=
  (columns.zip column_types).foldl (classifyStep role_map) ⟨[], [], [], []⟩

def _bar_spec (x y : String) : PyDict :=
  [("mark", .obj [("type", .str "bar"), ("cornerRadiusEnd", .num 3)]),
   ("encoding", .obj
     [("x", .obj [("field", .str x), ("type", .str "nominal"), ("sort", .str "-y")]),
      ("y", .obj [("field", .str y), ("type", .str "quantitative")]),
      ("color", .obj [("value", .str _PRIMARY)])]),
   ("width", .str "container"),
   ("height", .num 300)]

def _line_spec (x y : String) : PyDict :=
  [("mark", .obj [("type", .str "line"), ("point", .bool true)]),
   ("encoding", .obj
     [("x", .obj [("field", .str x), ("type", .str "temporal")]),
      ("y", .obj [("field", .str y), ("type", .str "quantitative")]),
      ("color", .obj [("value", .str _PRIMARY)])]),
   ("width", .str "container"),
   ("height", .num 300)]

def _scatter_spec (x y : String) : PyDict :=
  [("mark", .obj [("type", .str "point"), ("filled", .bool true)]),
   ("encoding", .obj
     [("x", .obj [("field", .str x), ("type", .str "quantitative")]),
      ("y", .obj [("field", .str y), ("type", .str "quantitative")]),
      ("color", .obj [("value", .str _PRIMARY)])]),
   ("width", .str "container"),
   ("height", .num 300)]

def _stacked_area_spec (time_col : String) (measure_cols : List String) : PyDict :=
  [("transform", .arr [.obj
     [("fold", .arr (measure_cols.map JVal.str)),
      ("as", .arr [.str "metric", .str "value"])]]),
   ("mark", .obj [("type", .str "area"), ("opacity", .num (7 / 10)), ("line", .bool true)]),
   ("encoding", .obj
     [("x", .obj [("field", .str time_col), ("type", .str "temporal")]),
      ("y", .obj [("field", .str "value"), ("type", .str "quantitative"),
                  ("stack", .str "zero")]),
      ("color", .obj [("field", .str "metric"), ("type", .str "nominal")])]),
   ("width", .str "container"),
   ("height", .num 300)]

def _kpi_spec (field : String) : PyDict :=
  [("mark", .obj
     [("type", .str "text"), ("fontSize", .num 48), ("fontWeight", .num 700),
      ("color", .str _PRIMARY)]),
   ("encoding", .obj
     [("text", .obj [("field", .str field), ("type", .str "quantitative"),
                     ("format", .str ",.2~f")])]),
   ("width", .str "container"),
   ("height", .num 80)]

/-- `auto_detect_chart` from `auto_detect.py` (the `none` case would be a
propagated `TypeError` from `apply_theme`; it never fires, since no rule's
spec carries a `config` key). -/
def auto_detect_chart (columns column_types : List String)
    (enriched : EnrichedSchema) : Option PyDict :=
  let role_map := _build_role_map enriched
  let c := classifyCols columns column_types role_map
  if c.time_cols.isEmpty && c.cat_cols.isEmpty && c.measure_cols.length == 1 then
    apply_theme (_kpi_spec (c.measure_cols.headD ""))
  else if !c.time_cols.isEmpty && c.measure_cols.length ≥ 2 then
    apply_theme (_stacked_area_spec (c.time_cols.headD "") c.measure_cols)
  else if !c.time_cols.isEmpty && !c.measure_cols.isEmpty then
    apply_theme (_line_spec (c.time_cols.headD "") (c.measure_cols.headD ""))
  else if !c.cat_cols.isEmpty && !c.measure_cols.isEmpty then
    apply_theme (_bar_spec (c.cat_cols.headD "") (c.measure_cols.headD ""))
  else if c.numeric_cols.length ≥ 2 then
    apply_theme (_scatter_spec (c.numeric_cols.headD "") (c.numeric_cols.getD 1 ""))
  else if columns.length ≥ 2 then
    apply_theme (_bar_spec (columns.headD "") (columns.getD 1 ""))
  else if !columns.isEmpty then
    apply_theme (_kpi_spec (columns.headD ""))
  else
    apply_theme [("mark", .str "text"), ("encoding", .obj [])]

/-! ## `lumen/whatif/chart.py` and `lumen/whatif/explain.py` -/

/-- `build_trend_chart`: layered solid-actuals / dashed-projections spec. -/
def build_trend_chart (time_field measure : String) : Option PyDict :=
  apply_theme
    [("layer", .arr
       [.obj
         [("transform", .arr [.obj [("filter", .str "datum.period_type === 'actual'")]]),
          ("mark", .obj
            [("type", .str "line"),
             ("point", .obj [("shape", .str "circle"), ("size", .num 40)]),
             ("strokeWidth", .num 2)]),
          ("encoding", .obj
            [("x", .obj [("field", .str time_field), ("type", .str "temporal")]),
             ("y", .obj [("field", .str measure), ("type", .str "quantitative")]),
             ("color", .obj [("value", .str "#3b5998")])])],
        .obj
         [("transform", .arr [.obj [("filter", .str "datum.period_type === 'projected'")]]),
          ("mark", .obj
            [("type", .str "line"),
             ("point", .obj [("shape", .str "diamond"), ("size", .num 50)]),
             ("strokeWidth", .num 2),
             ("strokeDash", .arr [.num 6, .num 4])]),
          ("encoding", .obj
            [("x", .obj [("field", .str time_field), ("type", .str "temporal")]),
             ("y", .obj [("field", .str measure), ("type", .str "quantitative")]),
             ("color", .obj [("value", .str "#c67a3c")])])]]),
     ("width", .str "container"),
     ("height", .num 300)]

/-- The parameters dict passed to a caveat generator (only the two keys the
trend generator reads are modelled). -/
structure CaveatParams where
  periods_ahead : Option Int
  period_interval : Option String

def _trend_extrapolation_caveats (parameters : CaveatParams) : List String :=
  let periods := parameters.periods_ahead.getD 3
  let interval := parameters.period_interval.getD "month"
  ["Projects " ++ toString periods ++ " " ++ interval
     ++ "(s) ahead using linear regression on historical data.",
   "Assumes the historical trend continues unchanged — external shocks are not modeled.",
   "R-squared (R²) indicates fit quality: values below 0.5 suggest weak predictive power.",
   "Extrapolation beyond observed data ranges carries increasing uncertainty."]

def _unknown_caveats (_ : CaveatParams) : List String :=
  ["Unknown technique — no specific caveats available."]

/-- `generate_caveats`: dispatch on technique name, default branch for
unknown techniques. -/
def generate_caveats (technique : String) (parameters : CaveatParams) : List String :=
  if technique == "trend_extrapolation" then _trend_extrapolation_caveats parameters
  else _unknown_caveats parameters

/-! ## `lumen/agent/cell.py` — cell model

`id` and `created_at` are generated from `uuid4()` and the wall clock and
are not modelled; every other field the orchestrator writes is. -/

structure DataReference where
  ref_id : String
  text : String
  source : String

structure CellContext where
  parent_cell_id : Option String
  refinement_of : Option String
  conversation_position : Nat

structure CellSQL where
  query : String
  generated_by : String
  edited_by_user : Bool

structure CellResult where
  columns : List String
  column_types : List String
  row_count : Nat
  data_hash : String
  data : List PyDict
  truncated : Bool
  execution_time_ms : Nat
  diagnostics : List Diag

structure CellChart where
  spec : PyDict
  auto_detected : Bool
  theme : String

structure CellNarrative where
  text : String
  data_references : List DataReference

structure WhatIfMetadata where
  technique : String
  parameters : PyDict
  caveats : List String

structure CellMetadata where
  model : String
  agent_steps : List String
  retry_count : Nat
  reasoning : String
  whatif : Option WhatIfMetadata

structure Cell where
  question : String
  context : CellContext
  sql : CellSQL
  result : CellResult
  chart : CellChart
  narrative : CellNarrative
  metadata : CellMetadata

/-! ## `lumen/agent/agent.py` — orchestrator

The external collaborators of `ask_question` are the fields of `AgentEnv`:
the Anthropic planner call per attempt (`plan`, `none` when the response
holds no `plan_query` tool_use block, otherwise the tool input after its
`.get` defaulting), the pglast parser behind `validate_sql`, the successive
`execute_query` results in call order (`exec`), and the extracted
`narrate_results` output.  Events are the SSE events the generator yields;
`AskOutput.raised` is `some msg` when the generator aborts with an uncaught
exception instead of returning. -/

inductive SSEEvent where
  | stage (stage : String)
  | cell (c : Cell)
  | error (code : String) (message : String)

/-- `whatif` tool input after `.get` defaulting; `none` at the orchestrator
also covers a falsy (empty) whatif dict, which disables the branch the same
way an absent key does. -/
structure WhatifInput where
  technique : Option String
  time_field : Option String
  measure : Option String
  periods_ahead : Option Int
  period_interval : Option String

structure PlanInput where
  reasoning : String
  sql : String
  chart_spec : PyDict
  whatif : Option WhatifInput

structure AgentEnv where
  api_key_present : Bool
  plan : Nat → Option PlanInput
  parse : String → Except String (List Node)
  exec : Nat → Result CellResult
  narrate : String × List DataReference
  enriched : EnrichedSchema
  model : String
  question : String
  parent_cell_id : Option String

def MAX_RETRIES : Nat := 3

/-- State carried out of the retry loop on success (`break`). -/
structure PlanSuccess where
  reasoning : String
  sql : String
  chart_spec : PyDict
  whatif_input : Option WhatifInput
  exec_result : Result CellResult
  retry_count : Nat
  agent_steps : List String
  exec_count : Nat

/-- The `for attempt in range(MAX_RETRIES + 1)` loop of `ask_question`.
`fuel = MAX_RETRIES - attempt` counts the attempts left, so `fuel > 0` is
`attempt < MAX_RETRIES`.  Returns the events yielded inside the loop and
`some` success state (the `break`), or `none` after a terminal error
event. -/
def askLoop (env : AgentEnv) : Nat → Nat → Nat → List String → Nat →
    List SSEEvent × Option PlanSuccess
  | attempt, 0, retry_count, agent_steps, exec_count =>
    match env.plan attempt with
    | none =>
        ([SSEEvent.error "AGENT_ERROR" "LLM did not return a plan_query tool call"], none)
    | some tool_input =>
      if (validate_sql env.parse tool_input.sql).ok = false then
        ([SSEEvent.error "AGENT_ERROR"
           ("SQL validation failed after " ++ toString MAX_RETRIES ++ " retries: "
             ++ String.intercalate "; "
                  ((validate_sql env.parse tool_input.sql).diagnostics.map
                    Diag.message))], none)
      else if (env.exec exec_count).has_errors then
        ([SSEEvent.stage "executing",
          SSEEvent.error "AGENT_ERROR"
            ("SQL execution failed after " ++ toString MAX_RETRIES ++ " retries: "
              ++ String.intercalate "; "
                   (((env.exec exec_count).diagnostics.filter
                      (fun d => d.severity == Severity.error)).map Diag.message))],
         none)
      else
        ([SSEEvent.stage "executing"],
         some ⟨tool_input.reasoning, tool_input.sql, tool_input.chart_spec,
               tool_input.whatif, env.exec exec_count, retry_count,
               agent_steps ++ ["executing"], exec_count + 1⟩)
  | attempt, fuel' + 1, retry_count, agent_steps, exec_count =>
    match env.plan attempt with
    | none =>
        ([SSEEvent.error "AGENT_ERROR" "LLM did not return a plan_query tool call"], none)
    | some tool_input =>
      if (validate_sql env.parse tool_input.sql).ok = false then
        (SSEEvent.stage "correcting"
           :: (askLoop env (attempt + 1) fuel' (retry_count + 1)
                 (agent_steps ++ ["correcting"]) exec_count).1,
         (askLoop env (attempt + 1) fuel' (retry_count + 1)
            (agent_steps ++ ["correcting"]) exec_count).2)
      else if (env.exec exec_count).has_errors then
        (SSEEvent.stage "executing" :: SSEEvent.stage "correcting"
           :: (askLoop env (attempt + 1) fuel' (retry_count + 1)
                 (agent_steps ++ ["executing", "correcting"]) (exec_count + 1)).1,
         (askLoop env (attempt + 1) fuel' (retry_count + 1)
            (agent_steps ++ ["executing", "correcting"]) (exec_count + 1)).2)
      else
        ([SSEEvent.stage "executing"],
         some ⟨tool_input.reasoning, tool_input.sql, tool_input.chart_spec,
               tool_input.whatif, env.exec exec_count, retry_count,
               agent_steps ++ ["executing"], exec_count + 1⟩)

/-- Chart resolution (agent.py lines 283–302): trend override, or validate
the planner spec and fall back to auto-detection; `none` is a propagated
`TypeError` from `apply_theme`. -/
def resolveChart (is_whatif : Bool) (whatif_input : Option WhatifInput)
    (chart_spec : PyDict) (cell_result : CellResult) (enriched : EnrichedSchema) :
    Option (PyDict × Bool) :=
  if is_whatif && whatif_input.isSome then
    match whatif_input with
    | some wi =>
        match build_trend_chart (wi.time_field.getD "") (wi.measure.getD "") with
        | some spec => some (spec, true)
        | none => none
    | none => none
  else if (validate_chart_spec chart_spec cell_result.columns).ok = false then
    match auto_detect_chart cell_result.columns cell_result.column_types enriched with
    | some spec => some (spec, true)
    | none => none
  else
    match apply_theme chart_spec with
    | some themed => some (themed, false)
    | none => none

structure AskOutput where
  events : List SSEEvent
  raised : Option String

/-- Chart resolution, narration and cell assembly (the tail of
`ask_question` after the what-if branch). -/
def finishAsk (env : AgentEnv) (events : List SSEEvent) (agent_steps : List String)
    (retry_count : Nat) (reasoning sql : String) (chart_spec : PyDict)
    (whatif_input : Option WhatifInput) (is_whatif : Bool)
    (whatif_meta : Option WhatIfMetadata) (cell_result : CellResult) : AskOutput :=
  match resolveChart is_whatif whatif_input chart_spec cell_result env.enriched with
  | none => ⟨events, some "TypeError: apply_theme on non-dict config"⟩
  | some (final_spec, auto_detected) =>
      ⟨events ++
        [SSEEvent.stage "narrating",
         SSEEvent.cell
           ⟨env.question,
            ⟨env.parent_cell_id, env.parent_cell_id, 0⟩,
            ⟨sql, "llm", false⟩,
            cell_result,
            ⟨final_spec, auto_detected, "lumen-default"⟩,
            ⟨env.narrate.1, env.narrate.2⟩,
            ⟨env.model, agent_steps ++ ["narrating"], retry_count, reasoning,
             whatif_meta⟩⟩], none⟩

/-- The what-if branch of `ask_question` (agent.py lines 228–281), entered
with the loop's success state and the baseline result.  `TrendParams(...)`
is pydantic-validated: `Field(ge=1, le=24)` on `periods_ahead` raises
`ValidationError` at construction, uncaught in `ask_question`. -/
def askWhatif (env : AgentEnv) (st : PlanSuccess) (cell_result : CellResult)
    (events : List SSEEvent) : AskOutput :=
  match st.whatif_input with
  | some wi =>
    if wi.technique == some "trend_extrapolation" then
      if wi.periods_ahead.getD 3 < 1 ∨ wi.periods_ahead.getD 3 > _MAX_PERIODS then
        ⟨events ++ [SSEEvent.stage "projecting"],
         some "pydantic.ValidationError: periods_ahead out of range"⟩
      else
        match (build_trend_sql st.sql
            ⟨wi.time_field.getD "", wi.measure.getD "", wi.periods_ahead.getD 3,
             wi.period_interval.getD "month"⟩).data with
        | some trend_data =>
          if (build_trend_sql st.sql
              ⟨wi.time_field.getD "", wi.measure.getD "", wi.periods_ahead.getD 3,
               wi.period_interval.getD "month"⟩).ok then
            match (env.exec st.exec_count).data with
            | some trend_cell_result =>
              if (env.exec st.exec_count).ok then
                finishAsk env (events ++ [SSEEvent.stage "projecting"])
                  (st.agent_steps ++ ["projecting"]) st.retry_count st.reasoning
                  trend_data.sql st.chart_spec st.whatif_input true
                  (some ⟨"trend_extrapolation",
                    [("time_field", .str (wi.time_field.getD "")),
                     ("measure", .str (wi.measure.getD "")),
                     ("periods_ahead", .num ((wi.periods_ahead.getD 3 : Int) : Rat)),
                     ("period_interval", .str (wi.period_interval.getD "month"))],
                    generate_caveats "trend_extrapolation"
                      ⟨some (wi.periods_ahead.getD 3),
                       some (wi.period_interval.getD "month")⟩⟩)
                  trend_cell_result
              else
                finishAsk env (events ++ [SSEEvent.stage "projecting"])
                  (st.agent_steps ++ ["projecting"]) st.retry_count st.reasoning
                  st.sql st.chart_spec st.whatif_input false none cell_result
            | none =>
                finishAsk env (events ++ [SSEEvent.stage "projecting"])
                  (st.agent_steps ++ ["projecting"]) st.retry_count st.reasoning
                  st.sql st.chart_spec st.whatif_input false none cell_result
          else
            finishAsk env (events ++ [SSEEvent.stage "projecting"])
              (st.agent_steps ++ ["projecting"]) st.retry_count st.reasoning
              st.sql st.chart_spec st.whatif_input false none cell_result
        | none =>
            finishAsk env (events ++ [SSEEvent.stage "projecting"])
              (st.agent_steps ++ ["projecting"]) st.retry_count st.reasoning
              st.sql st.chart_spec st.whatif_input false none cell_result
    else
      finishAsk env events st.agent_steps st.retry_count st.reasoning st.sql
        st.chart_spec st.whatif_input false none cell_result
  | none =>
      finishAsk env events st.agent_steps st.retry_count st.reasoning st.sql
        st.chart_spec st.whatif_input false none cell_result

/-- `ask_question` from `agent.py` as a function of its collaborators,
returning the yielded event stream and whether the generator aborted with
an uncaught exception. -/
def ask_question (env : AgentEnv) : AskOutput :=
  if env.api_key_present = false then
    ⟨[SSEEvent.error "CONFIG_ERROR"
       "Missing API key: set ANTHROPIC_API_KEY environment variable"], none⟩
  else
    match askLoop env 0 MAX_RETRIES 0 ["thinking"] 0 with
    | (events1, none) => ⟨SSEEvent.stage "thinking" :: events1, none⟩
    | (events1, some st) =>
      match st.exec_result.data with
      | none =>
          ⟨SSEEvent.stage "thinking"
             :: (events1 ++ [SSEEvent.error "AGENT_ERROR" "No result data from execution"]),
           none⟩
      | some cell_result =>
          askWhatif env st cell_result (SSEEvent.stage "thinking" :: events1)

/-! ### Event-stream predicates (for C2, C3, C4) -/

/-- Terminal events are the `cell` artifact and `error`; stage events are
not terminal. -/
def isTerminal : SSEEvent → Bool
  | .stage _ => false
  | .cell _ => true
  | .error _ _ => true

def countTerminal (evs : List SSEEvent) : Nat :=
  (evs.filter isTerminal).length

/-- Number of stage events carrying the given stage name. -/
def countStage (s : String) (evs : List SSEEvent) : Nat :=
  (evs.filter (fun e => match e with | .stage s2 => s2 = s | _ => false)).length

/-- The cells carried by the stream's `cell` events. -/
def cellEvents (evs : List SSEEvent) : List Cell :=
  evs.filterMap (fun e => match e with | .cell c => some c | _ => none)

/-- States of the stage-order automaton for one invocation: inside the
retry loop with a number of corrections left, just executed, projected,
narrated, terminated, or violated. -/
inductive StreamState where
  | start
  | inLoop (fuel : Nat)
  | executed (fuel : Nat)
  | projected
  | narrated
  | done
  | dead

/-- Transition relation of the stage-order automaton: `thinking`, then
`correcting` (consuming one unit of budget, re-entering via `executing` or
directly), `executing`, optional `projecting`, `narrating`, then exactly
one terminal event; anything else (or anything after the terminal) is
`dead`. -/
def streamStep : StreamState → SSEEvent → StreamState
  | .start, .stage "thinking" => .inLoop MAX_RETRIES
  | .start, .error _ _ => .done
  | .inLoop (f + 1), .stage "correcting" => .inLoop f
  | .inLoop f, .stage "executing" => .executed f
  | .inLoop _, .error _ _ => .done
  | .executed (f + 1), .stage "correcting" => .inLoop f
  | .executed _, .error _ _ => .done
  | .executed _, .stage "projecting" => .projected
  | .executed _, .stage "narrating" => .narrated
  | .projected, .stage "narrating" => .narrated
  | .narrated, .cell _ => .done
  | _, _ => .dead

def runStream (st : StreamState) : List SSEEvent → StreamState
  | [] => st
  | e :: rest => runStream (streamStep st e) rest

/-- The stream follows the staged grammar and ends in the terminal state. -/
def streamAccepts (evs : List SSEEvent) : Bool :=
  match runStream StreamState.start evs with
  | .done => true
  | _ => false

/-- The diagnostic appended by the forbidden-node walk for one match. -/
def forbiddenDiag (tag : String) : Diag :=
  ⟨Severity.error, "VALIDATION_ERROR", "Forbidden statement type: " ++ tag, none⟩

lemma err_foldl_diagnostics (tags : List String) (r : Result String) :
    (tags.foldl
      (fun r tag =>
        Result.err r "VALIDATION_ERROR" ("Forbidden statement type: " ++ tag) none)
      r).diagnostics
      = r.diagnostics ++ tags.map forbiddenDiag := by
  induction tags generalizing r with
  | nil => simp
  | cons t ts ih =>
      rw [List.foldl_cons, ih]
      simp [Result.err, forbiddenDiag]

lemma err_foldl_data (tags : List String) (r : Result String) :
    (tags.foldl
      (fun r tag =>
        Result.err r "VALIDATION_ERROR" ("Forbidden statement type: " ++ tag) none)
      r).data = r.data := by
  induction tags generalizing r with
  | nil => rfl
  | cons t ts ih =>
      rw [List.foldl_cons, ih]
      rfl

/-- Helper: the full shape of `validate_sql` on a parsed single SELECT. -/
lemma validate_sql_single_select (parse : String → Except String (List Node))
    (sql : String) (top : Node) (hp : parse sql = Except.ok [top])
    (ht : Node.tag top = "SelectStmt") :
    (validate_sql parse sql).diagnostics
      = (_ForbiddenNodeChecker [top]).map forbiddenDiag := by
  unfold validate_sql
  rw [hp]
  simp only [ht, ite_false]
  set r := (_ForbiddenNodeChecker [top]).foldl
    (fun r tag =>
      Result.err r "VALIDATION_ERROR" ("Forbidden statement type: " ++ tag) none)
    Result.empty with hr
  have hd : r.diagnostics = (_ForbiddenNodeChecker [top]).map forbiddenDiag := by
    rw [hr, err_foldl_diagnostics]; rfl
  by_cases hok : r.ok
  · simp [hok, hd]
  · simp [hok, hd]

lemma forbiddenDiag_severity (tag : String) : (forbiddenDiag tag).severity = Severity.error :=
  rfl

/-- Concrete parse outcome used by the C1 counterexample: two top-level
DELETE statements. -/
def parseTwoDeletes : String → Except String (List Node) :=
  fun _ => Except.ok [Node.mk "DeleteStmt" [], Node.mk "DeleteStmt" []]

/-- C1, counterexample.  The claim says every forbidden node found in the
parse tree is appended as its own VALIDATION_ERROR naming the construct.
On `"DELETE FROM x; DELETE FROM y"` the tree holds two forbidden
`DeleteStmt` nodes, yet `validate_sql` returns exactly one diagnostic,
`"Expected 1 statement, got 2"`, which names neither: the multi-statement
check returns before the forbidden-node walk runs. -/
theorem c1_counterexample_two_deletes :
    _ForbiddenNodeChecker [Node.mk "DeleteStmt" [], Node.mk "DeleteStmt" []]
      = ["DeleteStmt", "DeleteStmt"]
    ∧ (validate_sql parseTwoDeletes "DELETE FROM x; DELETE FROM y").diagnostics
        = [⟨Severity.error, "VALIDATION_ERROR", "Expected 1 statement, got 2", none⟩] := by
  constructor
  · rfl
  · decide

/-- C1 (amended).  For SQL that parses, (a) when the input is a single
top-level SELECT, the diagnostics of `validate_sql` are exactly one
VALIDATION_ERROR per forbidden node found anywhere in the tree, each naming
its construct (`Forbidden statement type: <tag>`), and the outcome fails as
soon as one exists; (b) for any parsed input whose tree holds a forbidden
node, validation fails with at least one VALIDATION_ERROR — though on the
early-exit shapes (several statements, or a non-SELECT top level) that
error names the statement count or the top-level kind, not each nested
forbidden node. -/
theorem c1_forbidden_nodes_all_reported
    (parse : String → Except String (List Node)) (sql : String)
    (stmts : List Node) (hp : parse sql = Except.ok stmts) :
    (∀ top, stmts = [top] → Node.tag top = "SelectStmt" →
        (validate_sql parse sql).diagnostics
          = (_ForbiddenNodeChecker stmts).map forbiddenDiag
        ∧ (_ForbiddenNodeChecker stmts ≠ [] → (validate_sql parse sql).ok = false))
    ∧ (_ForbiddenNodeChecker stmts ≠ [] →
        (validate_sql parse sql).ok = false
        ∧ ∃ d ∈ (validate_sql parse sql).diagnostics,
            d.severity = Severity.error ∧ d.code = "VALIDATION_ERROR") := by
  have hsel : ∀ top, stmts = [top] → Node.tag top = "SelectStmt" →
      (validate_sql parse sql).diagnostics
        = (_ForbiddenNodeChecker stmts).map forbiddenDiag := by
    intro top htop hst
    subst htop
    exact validate_sql_single_select parse sql top hp hst
  have hfail : ∀ top, stmts = [top] → Node.tag top = "SelectStmt" →
      _ForbiddenNodeChecker stmts ≠ [] → (validate_sql parse sql).ok = false := by
    intro top htop hst hne
    have hd := hsel top htop hst
    rcases hx : _ForbiddenNodeChecker stmts with _ | ⟨t, ts⟩
    · exact absurd hx hne
    · simp only [Result.ok, Result.has_errors, hd, hx, List.map_cons, List.any_cons,
        forbiddenDiag, Bool.not_eq_false]
      simp
  refine ⟨fun top htop hst => ⟨hsel top htop hst, hfail top htop hst⟩, ?_⟩
  intro hne
  match hst : stmts with
  | [] => exact absurd rfl hne
  | [top] =>
    by_cases htag : Node.tag top = "SelectStmt"
    · have hd := hsel top rfl htag
      have hok := hfail top rfl htag hne
      refine ⟨hok, ?_⟩
      rcases hx : _ForbiddenNodeChecker [top] with _ | ⟨t, ts⟩
      · exact absurd hx hne
      · refine ⟨forbiddenDiag t, ?_, rfl, rfl⟩
        rw [hd, hx]
        simp
    · have hv : validate_sql parse sql
          = Result.err Result.empty "VALIDATION_ERROR"
              ("Only SELECT statements allowed, got " ++ Node.tag top) none := by
        unfold validate_sql
        rw [hp]
        simp [htag]
      rw [hv]
      refine ⟨by simp [Result.ok, Result.has_errors, Result.err, Result.empty], ?_⟩
      refine ⟨⟨Severity.error, "VALIDATION_ERROR",
        "Only SELECT statements allowed, got " ++ Node.tag top, none⟩, ?_, rfl, rfl⟩
      simp [Result.err, Result.empty]
  | a :: b :: rest =>
    have hv : validate_sql parse sql
        = Result.err Result.empty "VALIDATION_ERROR"
            ("Expected 1 statement, got " ++ toString (a :: b :: rest).length) none := by
      unfold validate_sql
      rw [hp]
    rw [hv]
    refine ⟨by simp [Result.ok, Result.has_errors, Result.err, Result.empty], ?_⟩
    refine ⟨⟨Severity.error, "VALIDATION_ERROR",
      "Expected 1 statement, got " ++ toString (a :: b :: rest).length, none⟩, ?_, rfl, rfl⟩
    simp [Result.err, Result.empty]

/-- Concrete parse outcome used by the C1 witness: a single SELECT with an
INSERT nested inside a CTE. -/
def parseSelectWithNestedInsert : String → Except String (List Node) :=
  fun _ => Except.ok
    [Node.mk "SelectStmt" [Node.mk "CommonTableExpr" [Node.mk "InsertStmt" []]]]

def sqlWithNestedInsert : String :=
  "WITH w AS (INSERT INTO t VALUES (1) RETURNING id) SELECT * FROM w"

/-- C1, witness: a single SELECT whose CTE hides an INSERT fails validation
with exactly the one VALIDATION_ERROR naming `InsertStmt`. -/
theorem c1_witness :
    (validate_sql parseSelectWithNestedInsert sqlWithNestedInsert).diagnostics
      = [⟨Severity.error, "VALIDATION_ERROR", "Forbidden statement type: InsertStmt", none⟩]
    ∧ (validate_sql parseSelectWithNestedInsert sqlWithNestedInsert).ok = false := by
  have h := (c1_forbidden_nodes_all_reported parseSelectWithNestedInsert sqlWithNestedInsert
      [Node.mk "SelectStmt" [Node.mk "CommonTableExpr" [Node.mk "InsertStmt" []]]] rfl).1
      (Node.mk "SelectStmt" [Node.mk "CommonTableExpr" [Node.mk "InsertStmt" []]]) rfl rfl
  refine ⟨?_, h.2 (by decide)⟩
  rw [h.1]
  decide

/-- C7: an input string that fails to parse yields a failing outcome whose
diagnostics are exactly one SQL_PARSE_ERROR, never a VALIDATION_ERROR, and
no further checks run (the returned result holds nothing else). -/
theorem c7_parse_error_single_diagnostic
    (parse : String → Except String (List Node)) (sql e : String)
    (hp : parse sql = Except.error e) :
    validate_sql parse sql
      = ⟨none, [⟨Severity.error, "SQL_PARSE_ERROR", "SQL parse error: " ++ e, none⟩]⟩
    ∧ (validate_sql parse sql).ok = false
    ∧ ∀ d ∈ (validate_sql parse sql).diagnostics, d.code ≠ "VALIDATION_ERROR" := by
  have hv : validate_sql parse sql
      = ⟨none, [⟨Severity.error, "SQL_PARSE_ERROR", "SQL parse error: " ++ e, none⟩]⟩ := by
    unfold validate_sql
    rw [hp]
    rfl
  refine ⟨hv, ?_, ?_⟩
  · simp [hv, Result.ok, Result.has_errors]
  · intro d hd
    rw [hv] at hd
    simp only [List.mem_singleton] at hd
    subst hd
    simp

/-- Concrete failing parse used by the C7 witness. -/
def parseAlwaysError : String → Except String (List Node) :=
  fun _ => Except.error "syntax error at or near SELEC"

/-- C7, witness at a concrete unparseable input. -/
theorem c7_witness :
    validate_sql parseAlwaysError "SELEC 1"
      = ⟨none, [⟨Severity.error, "SQL_PARSE_ERROR",
           "SQL parse error: syntax error at or near SELEC", none⟩]⟩ :=
  (c7_parse_error_single_diagnostic parseAlwaysError "SELEC 1"
    "syntax error at or near SELEC" rfl).1

/-! ### Trend rewriter: C5, C6 -/

lemma strJoin_data (l : List String) : (strJoin l).data = (l.map String.data).flatten := by
  induction l with
  | nil => rfl
  | cons s rest ih => simp [strJoin, String.data_append, ih]

lemma strJoin_cons_data (s : String) (rest : List String) :
    (strJoin (s :: rest)).data = s.data ++ (strJoin rest).data := by
  simp [strJoin, String.data_append]

lemma strContainsP_join_here (s : String) (rest : List String) (sub : String)
    (h : List.IsInfix sub.data s.data) : strContainsP (strJoin (s :: rest)) sub := by
  unfold strContainsP
  rw [strJoin_cons_data]
  exact h.trans ⟨[], (strJoin rest).data, by simp⟩

lemma strContainsP_join_there (s : String) (rest : List String) (sub : String)
    (h : strContainsP (strJoin rest) sub) : strContainsP (strJoin (s :: rest)) sub := by
  unfold strContainsP at h ⊢
  rw [strJoin_cons_data]
  obtain ⟨u, v, huv⟩ := h
  exact ⟨s.data ++ u, v, by rw [← huv]; simp⟩

lemma strEndsWith_join_last (x : String) : strEndsWith (strJoin [x]) x := by
  unfold strEndsWith
  rw [strJoin_cons_data]
  exact ⟨[], by simp [strJoin]⟩

lemma strEndsWith_join_step (s : String) (rest : List String) (x : String)
    (h : strEndsWith (strJoin rest) x) : strEndsWith (strJoin (s :: rest)) x := by
  unfold strEndsWith at h ⊢
  rw [strJoin_cons_data]
  exact h.trans (List.suffix_append s.data (strJoin rest).data)

/-- C5: out-of-domain trend parameters are rejected before any SQL is
generated — an interval outside {day, week, month, quarter, year} yields
exactly one TREND_INVALID_INTERVAL diagnostic whose hint lists the valid
set, and (with a valid interval) a periods_ahead outside [1, 24] yields
exactly one TREND_INVALID_PERIODS diagnostic; in both cases `data` is
`none`, so no SQL is produced.  The interval check runs first, as in the
source. -/
theorem c5_trend_params_validated_before_sql (p : TrendParams) (baseline : String) :
    (p.period_interval ∉ _VALID_INTERVALS →
      build_trend_sql baseline p
        = ⟨none, [⟨Severity.error, "TREND_INVALID_INTERVAL",
            "Invalid period_interval '" ++ p.period_interval ++ "'",
            some ("Must be one of: " ++ String.intercalate ", " _sortedIntervals)⟩]⟩)
    ∧ (p.period_interval ∈ _VALID_INTERVALS →
       (p.periods_ahead < 1 ∨ p.periods_ahead > 24) →
      build_trend_sql baseline p
        = ⟨none, [⟨Severity.error, "TREND_INVALID_PERIODS",
            "periods_ahead must be 1-24, got " ++ toString p.periods_ahead, none⟩]⟩)
    ∧ String.intercalate ", " _sortedIntervals = "day, month, quarter, week, year" := by
  refine ⟨?_, ?_, by decide⟩
  · intro h
    unfold build_trend_sql
    rw [if_pos h]
    rfl
  · intro hin hout
    unfold build_trend_sql
    rw [if_neg (by simp [hin]), if_pos (show p.periods_ahead < 1 ∨ p.periods_ahead > _MAX_PERIODS from hout)]
    rfl

/-- C5, witness: periodsAhead 0 and 25 and interval "decade" are all
rejected with no SQL produced (the claim's three named inputs). -/
theorem c5_witness :
    (build_trend_sql "SELECT t, v FROM x" ⟨"t", "v", 0, "month"⟩).data = none
    ∧ (build_trend_sql "SELECT t, v FROM x" ⟨"t", "v", 25, "month"⟩).data = none
    ∧ (build_trend_sql "SELECT t, v FROM x" ⟨"t", "v", 3, "decade"⟩).data = none := by
  refine ⟨?_, ?_, ?_⟩
  · rw [(c5_trend_params_validated_before_sql ⟨"t", "v", 0, "month"⟩
      "SELECT t, v FROM x").2.1 (by decide) (by decide)]
  · rw [(c5_trend_params_validated_before_sql ⟨"t", "v", 25, "month"⟩
      "SELECT t, v FROM x").2.1 (by decide) (by decide)]
  · rw [(c5_trend_params_validated_before_sql ⟨"t", "v", 3, "decade"⟩
      "SELECT t, v FROM x").1 (by decide)]

/-- C6: for every valid `TrendParams` the rewriter succeeds, and the
generated SQL contains a future-series generator sized to `periods_ahead`,
both literal period-type tags `'actual'` and `'projected'`, and ends with
`ORDER BY "<time_field>"`; on the spec's concrete example
(`SELECT t, v FROM x`, 3 periods, month) the generator occurs exactly
once. -/
theorem c6_trend_sql_shape (baseline : String) (p : TrendParams)
    (hin : p.period_interval ∈ _VALID_INTERVALS)
    (h1 : 1 ≤ p.periods_ahead) (h2 : p.periods_ahead ≤ 24) :
    build_trend_sql baseline p
      = ⟨some ⟨trendSqlText baseline p.time_field p.measure p.period_interval p.periods_ahead,
          baseline, p.time_field, p.measure, p.periods_ahead, p.period_interval⟩, []⟩
    ∧ strContainsP
        (trendSqlText baseline p.time_field p.measure p.period_interval p.periods_ahead)
        ("generate_series(1, " ++ toString p.periods_ahead ++ ")")
    ∧ strContainsP
        (trendSqlText baseline p.time_field p.measure p.period_interval p.periods_ahead)
        "'actual'"
    ∧ strContainsP
        (trendSqlText baseline p.time_field p.measure p.period_interval p.periods_ahead)
        "'projected'"
    ∧ strEndsWith
        (trendSqlText baseline p.time_field p.measure p.period_interval p.periods_ahead)
        ("ORDER BY \x22" ++ p.time_field ++ "\x22")
    ∧ strOccurrences "generate_series(" (trendSqlText "SELECT t, v FROM x" "t" "v" "month" 3)
        = 1 := by
  refine ⟨?_, ?_, ?_, ?_, ?_, by decide⟩
  · unfold build_trend_sql
    rw [if_neg (by simp [hin]), if_neg (by
      unfold _MAX_PERIODS
      omega)]
  · unfold trendSqlText
    iterate 34 apply strContainsP_join_there
    apply strContainsP_join_here
    refine ⟨"  FROM ".data, " AS gs(n)\n".data, ?_⟩
    simp only [String.data_append, List.append_assoc]
    rfl
  · unfold trendSqlText
    iterate 14 apply strContainsP_join_there
    apply strContainsP_join_here
    exact ⟨"    ".data, " AS period_type\n".data, by rfl⟩
  · unfold trendSqlText
    iterate 24 apply strContainsP_join_there
    apply strContainsP_join_here
    exact ⟨"    ".data, " AS period_type\n".data, by rfl⟩
  · unfold trendSqlText
    iterate 43 apply strEndsWith_join_step
    apply strEndsWith_join_last

/-- C6, witness at the spec's example inputs. -/
theorem c6_witness :
    build_trend_sql "SELECT t, v FROM x" ⟨"t", "v", 3, "month"⟩
      = ⟨some ⟨trendSqlText "SELECT t, v FROM x" "t" "v" "month" 3,
          "SELECT t, v FROM x", "t", "v", 3, "month"⟩, []⟩
    ∧ strOccurrences "generate_series(" (trendSqlText "SELECT t, v FROM x" "t" "v" "month" 3)
        = 1 := by
  have h := c6_trend_sql_shape "SELECT t, v FROM x" ⟨"t", "v", 3, "month"⟩
    (by decide) (by decide) (by decide)
  exact ⟨h.1, h.2.2.2.2.2⟩

/-! ### Python-dict lemmas (for the theme merge: C8, C10) -/

lemma dictGet?_set_self {α : Type} (d : List (String × α)) (k : String) (v : α) :
    dictGet? (dictSet d k v) k = some v := by
  induction d with
  | nil => simp [dictSet, dictGet?]
  | cons p rest ih =>
      obtain ⟨k', v'⟩ := p
      by_cases h : k' = k
      · simp [dictSet, h, dictGet?]
      · simp [dictSet, h, dictGet?, ih]

lemma dictGet?_set_ne {α : Type} (d : List (String × α)) (k c : String) (v : α)
    (h : k ≠ c) : dictGet? (dictSet d k v) c = dictGet? d c := by
  induction d with
  | nil => simp [dictSet, dictGet?, h]
  | cons p rest ih =>
      obtain ⟨k', v'⟩ := p
      by_cases h' : k' = k
      · subst h'
        simp [dictSet, dictGet?, h]
      · simp [dictSet, h', dictGet?, ih]

lemma dictSet_get_eq {α : Type} (d : List (String × α)) (k : String) (v : α)
    (h : dictGet? d k = some v) : dictSet d k v = d := by
  induction d with
  | nil => simp [dictGet?] at h
  | cons p rest ih =>
      obtain ⟨k', v'⟩ := p
      by_cases h' : k' = k
      · subst h'
        simp [dictGet?] at h
        simp [dictSet, h]
      · simp [dictGet?, h'] at h
        simp [dictSet, h', ih h]

lemma dictContains_iff_isSome {α : Type} (d : List (String × α)) (k : String) :
    dictContains d k = (dictGet? d k).isSome := by
  induction d with
  | nil => rfl
  | cons p rest ih =>
      obtain ⟨k', v'⟩ := p
      by_cases h : k' = k
      · simp [dictContains, dictGet?, h]
      · simp [dictContains, dictGet?, h, ih]

lemma dictGet?_eq_none_of_not_mem {α : Type} (d : List (String × α)) (k : String)
    (h : k ∉ dictKeys d) : dictGet? d k = none := by
  induction d with
  | nil => rfl
  | cons p rest ih =>
      obtain ⟨k', v'⟩ := p
      simp [dictKeys] at h
      simp [dictGet?, fun hh : k' = k => h.1 hh.symm, ih (by simp [dictKeys, h.2])]
      intro hk
      exact absurd hk.symm h.1

lemma dictGet?_isSome_of_mem {α : Type} (d : List (String × α)) (k : String)
    (h : k ∈ dictKeys d) : (dictGet? d k).isSome := by
  induction d with
  | nil => simp [dictKeys] at h
  | cons p rest ih =>
      obtain ⟨k', v'⟩ := p
      by_cases hk : k' = k
      · simp [dictGet?, hk]
      · simp only [dictKeys, List.map_cons, List.mem_cons] at h
        rcases h with h1 | h2
        · exact absurd h1.symm hk
        · simp only [dictGet?, hk, if_false]
          exact ih h2

lemma not_mem_keys_of_contains_false {α : Type} (d : List (String × α)) (k : String)
    (h : dictContains d k = false) : k ∉ dictKeys d := by
  intro hmem
  have hs := dictGet?_isSome_of_mem d k hmem
  rw [dictContains_iff_isSome] at h
  rw [h] at hs
  cases hs

lemma dictKeys_set {α : Type} (d : List (String × α)) (k : String) (v : α) :
    dictKeys (dictSet d k v)
      = if dictContains d k then dictKeys d else dictKeys d ++ [k] := by
  induction d with
  | nil => simp [dictSet, dictKeys, dictContains]
  | cons p rest ih =>
      obtain ⟨k', v'⟩ := p
      by_cases h : k' = k
      · simp [dictSet, h, dictKeys, dictContains]
      · by_cases hc : dictContains rest k
        · simp [dictSet, h, dictKeys, dictContains, hc] at ih ⊢
          exact ih
        · simp [dictSet, h, dictKeys, dictContains, hc] at ih ⊢
          exact ih

lemma dictKeys_set_nodup {α : Type} (d : List (String × α)) (k : String) (v : α)
    (h : (dictKeys d).Nodup) : (dictKeys (dictSet d k v)).Nodup := by
  rw [dictKeys_set]
  by_cases hc : dictContains d k
  · simp [hc, h]
  · simp only [hc, Bool.false_eq_true, if_false]
    rw [List.nodup_append]
    refine ⟨h, List.nodup_singleton k, fun a ha hb => ?_⟩
    rw [List.mem_singleton] at hb
    subst hb
    exact not_mem_keys_of_contains_false d a (by simpa using hc) ha

lemma dictKeys_update_nodup {α : Type} (d w : List (String × α))
    (h : (dictKeys d).Nodup) : (dictKeys (dictUpdate d w)).Nodup := by
  induction w generalizing d with
  | nil => exact h
  | cons p rest ih =>
      obtain ⟨k, v⟩ := p
      exact ih (dictSet d k v) (dictKeys_set_nodup d k v h)

lemma dictKeys_update_prefix {α : Type} (d w : List (String × α)) :
    ∃ ext, dictKeys (dictUpdate d w) = dictKeys d ++ ext := by
  induction w generalizing d with
  | nil => exact ⟨[], by simp [dictUpdate]⟩
  | cons p rest ih =>
      obtain ⟨k, v⟩ := p
      obtain ⟨ext, hext⟩ := ih (dictSet d k v)
      rw [show dictUpdate d ((k, v) :: rest) = dictUpdate (dictSet d k v) rest from rfl,
        hext, dictKeys_set]
      by_cases hc : dictContains d k
      · exact ⟨ext, by simp [hc]⟩
      · exact ⟨[k] ++ ext, by simp [hc]⟩

lemma dictGet?_update {α : Type} (d w : List (String × α)) (c : String)
    (hw : (dictKeys w).Nodup) :
    dictGet? (dictUpdate d w) c = ((dictGet? w c).or (dictGet? d c)) := by
  induction w generalizing d with
  | nil => simp [dictUpdate, dictGet?]
  | cons p rest ih =>
      obtain ⟨k, v⟩ := p
      simp only [dictKeys, List.map_cons, List.nodup_cons] at hw
      have hrec := ih (dictSet d k v) hw.2
      rw [show dictUpdate d ((k, v) :: rest) = dictUpdate (dictSet d k v) rest from rfl,
        hrec]
      by_cases h : k = c
      · subst h
        rw [dictGet?_eq_none_of_not_mem rest k (by simpa [dictKeys] using hw.1)]
        simp [dictGet?_set_self, dictGet?]
      · simp [dictGet?, fun hh : k = c => h hh, dictGet?_set_ne d k c v h]

lemma dictSet_append_of_not_contains {α : Type} (d : List (String × α)) (k : String)
    (v : α) (h : dictContains d k = false) : dictSet d k v = d ++ [(k, v)] := by
  induction d with
  | nil => rfl
  | cons p rest ih =>
      obtain ⟨k', v'⟩ := p
      simp only [dictContains, Bool.or_eq_false_iff] at h
      have hne : k' ≠ k := by
        intro hh
        simp [hh] at h
      simp [dictSet, hne, ih h.2]

lemma dictContains_append_single_false {α : Type} (acc : List (String × α))
    (k k' : String) (v : α) (h1 : dictContains acc k' = false) (h2 : k ≠ k') :
    dictContains (acc ++ [(k, v)]) k' = false := by
  induction acc with
  | nil => simp [dictContains, h2]
  | cons q accr ih =>
      obtain ⟨kq, vq⟩ := q
      simp only [dictContains, Bool.or_eq_false_iff] at h1
      simp only [List.cons_append, dictContains, Bool.or_eq_false_iff]
      exact ⟨h1.1, ih h1.2⟩

lemma dictUpdate_fresh {α : Type} (acc l : List (String × α))
    (hfresh : ∀ k ∈ dictKeys l, dictContains acc k = false)
    (hnd : (dictKeys l).Nodup) : dictUpdate acc l = acc ++ l := by
  induction l generalizing acc with
  | nil => simp [dictUpdate]
  | cons p rest ih =>
      obtain ⟨k, v⟩ := p
      simp only [dictKeys, List.map_cons, List.nodup_cons] at hnd
      have hset : dictSet acc k v = acc ++ [(k, v)] :=
        dictSet_append_of_not_contains acc k v (hfresh k (List.mem_cons_self _ _))
      have hfresh' : ∀ k' ∈ dictKeys rest, dictContains (acc ++ [(k, v)]) k' = false := by
        intro k' hk'
        exact dictContains_append_single_false acc k k' v
          (hfresh k' (List.mem_cons_of_mem _ hk')) (fun hh => hnd.1 (hh ▸ hk'))
      rw [show dictUpdate acc ((k, v) :: rest) = dictUpdate (dictSet acc k v) rest from rfl,
        hset, ih (acc ++ [(k, v)]) hfresh' hnd.2]
      simp

lemma dictUpdate_cons_not_mem {α : Type} (k : String) (v : α)
    (d w : List (String × α)) (h : k ∉ dictKeys w) :
    dictUpdate ((k, v) :: d) w = (k, v) :: dictUpdate d w := by
  induction w generalizing d with
  | nil => rfl
  | cons p rest ih =>
      obtain ⟨kw, vw⟩ := p
      have h' : ¬k = kw ∧ k ∉ dictKeys rest := by
        simpa [dictKeys] using h
      rw [show dictUpdate ((k, v) :: d) ((kw, vw) :: rest)
            = dictUpdate (dictSet ((k, v) :: d) kw vw) rest from rfl]
      rw [show dictSet ((k, v) :: d) kw vw = (k, v) :: dictSet d kw vw by
        simp [dictSet, h'.1]]
      exact ih (dictSet d kw vw) h'.2

/-- Absorption: updating a dict whose key sequence is a prefix of `l`
(with `l`'s keys distinct) with `l` itself yields `l`. -/
lemma dictUpdate_absorb {α : Type} (d l : List (String × α))
    (hnd : (dictKeys l).Nodup)
    (hpre : dictKeys d = (dictKeys l).take d.length) : dictUpdate d l = l := by
  induction d generalizing l with
  | nil =>
      have : dictUpdate ([] : List (String × α)) l = [] ++ l :=
        dictUpdate_fresh [] l (fun k _ => rfl) hnd
      simpa using this
  | cons p dr ih =>
      obtain ⟨k, v0⟩ := p
      match l with
      | [] => simp [dictKeys] at hpre
      | (kl, vl) :: lr =>
          simp only [dictKeys, List.map_cons, List.length_cons, List.take_succ_cons,
            List.cons.injEq] at hpre
          obtain ⟨hk, hrest⟩ := hpre
          subst hk
          simp only [dictKeys, List.map_cons, List.nodup_cons] at hnd
          rw [show dictUpdate ((k, v0) :: dr) ((k, vl) :: lr)
                = dictUpdate (dictSet ((k, v0) :: dr) k vl) lr from rfl]
          rw [show dictSet ((k, v0) :: dr) k vl = (k, vl) :: dr by simp [dictSet]]
          rw [dictUpdate_cons_not_mem k vl dr lr hnd.1]
          rw [ih lr hnd.2 hrest]

lemma dictUpdate_self_absorb {α : Type} (d : List (String × α))
    (hnd : (dictKeys d).Nodup) : dictUpdate d d = d :=
  dictUpdate_absorb d d hnd (by simp [dictKeys])

lemma dictUpdate_update_absorb {α : Type} (d w : List (String × α))
    (hnd : (dictKeys d).Nodup) : dictUpdate d (dictUpdate d w) = dictUpdate d w := by
  obtain ⟨ext, hext⟩ := dictKeys_update_prefix d w
  refine dictUpdate_absorb d (dictUpdate d w) (dictKeys_update_nodup d w hnd) ?_
  rw [hext]
  rw [show d.length = (dictKeys d).length by simp [dictKeys]]
  simp

lemma dictGet?_eq_some_of_mem_nodup {α : Type} (d : List (String × α)) (k : String)
    (v : α) (hnd : (dictKeys d).Nodup) (hm : (k, v) ∈ d) : dictGet? d k = some v := by
  induction d with
  | nil => cases hm
  | cons p rest ih =>
      obtain ⟨k', v'⟩ := p
      simp only [dictKeys, List.map_cons, List.nodup_cons] at hnd
      rcases List.mem_cons.1 hm with h1 | h2
      · injection h1 with hk hv
        subst hk
        subst hv
        simp [dictGet?]
      · by_cases hk : k' = k
        · subst hk
          exact absurd (by simpa [dictKeys] using List.mem_map_of_mem Prod.fst h2) hnd.1
        · simp only [dictGet?, hk, if_false]
          exact ih hnd.2 h2

lemma mergeConfigEntry_of_contains (ec : PyDict) (k : String) (v : JVal)
    (hcont : dictContains ec k = true) :
    mergeConfigEntry ec (k, v)
      = match v, dictGet? ec k with
        | JVal.obj vkvs, some (JVal.obj ekvs) =>
            dictSet ec k (JVal.obj (dictUpdate vkvs ekvs))
        | _, _ => ec := by
  unfold mergeConfigEntry
  simp [hcont]

lemma mergeConfigEntry_of_not_contains (ec : PyDict) (k : String) (v : JVal)
    (hcont : dictContains ec k = false) :
    mergeConfigEntry ec (k, v) = dictSet ec k v := by
  unfold mergeConfigEntry
  simp [hcont]

lemma mergeConfigEntry_get_self (ec : PyDict) (k : String) (v : JVal) :
    dictGet? (mergeConfigEntry ec (k, v)) k = some (mergeOne (dictGet? ec k) v) := by
  rcases hcb : dictContains ec k with _ | _
  · have hn : dictGet? ec k = none := by
      rcases hx : dictGet? ec k with _ | w
      · rfl
      · rw [dictContains_iff_isSome, hx] at hcb
        simp at hcb
    rw [mergeConfigEntry_of_not_contains ec k v hcb, dictGet?_set_self, hn]
    rfl
  · rw [mergeConfigEntry_of_contains ec k v hcb]
    rcases hx : dictGet? ec k with _ | w
    · rw [dictContains_iff_isSome, hx] at hcb
      simp at hcb
    · cases v <;> cases w <;> simp [mergeOne, hx, dictGet?_set_self]

lemma mergeConfigEntry_get_other (ec : PyDict) (k c : String) (v : JVal) (h : k ≠ c) :
    dictGet? (mergeConfigEntry ec (k, v)) c = dictGet? ec c := by
  rcases hcb : dictContains ec k with _ | _
  · rw [mergeConfigEntry_of_not_contains ec k v hcb]
    exact dictGet?_set_ne ec k c v h
  · rw [mergeConfigEntry_of_contains ec k v hcb]
    rcases hx : dictGet? ec k with _ | w
    · rw [dictContains_iff_isSome, hx] at hcb
      simp at hcb
    · cases v <;> cases w <;> simp [hx, dictGet?_set_ne _ _ _ _ h]

/-- Lookup characterization of one full pass of the theme-config merge loop
over an arbitrary entry list `ts` with distinct keys. -/
lemma mergeConfig_get (ts ec : PyDict) (c : String) (hnd : (dictKeys ts).Nodup) :
    dictGet? (ts.foldl mergeConfigEntry ec) c
      = match dictGet? ts c with
        | none => dictGet? ec c
        | some v => some (mergeOne (dictGet? ec c) v) := by
  induction ts generalizing ec with
  | nil => simp [dictGet?]
  | cons p rest ih =>
      obtain ⟨k, v⟩ := p
      simp only [dictKeys, List.map_cons, List.nodup_cons] at hnd
      rw [List.foldl_cons, ih (mergeConfigEntry ec (k, v)) hnd.2]
      by_cases hkc : k = c
      · subst hkc
        rw [dictGet?_eq_none_of_not_mem rest k hnd.1]
        rw [show dictGet? ((k, v) :: rest) k = some v by simp [dictGet?]]
        exact mergeConfigEntry_get_self ec k v
      · rw [show dictGet? ((k, v) :: rest) c = dictGet? rest c by simp [dictGet?, hkc]]
        cases hrc : dictGet? rest c <;>
          simp [hrc, mergeConfigEntry_get_other ec k c v hkc]

/-- After one merge pass, re-merging any of the pass's own entries leaves
the dict unchanged. -/
lemma mergeConfigEntry_absorb (ts ec : PyDict) (k : String) (v : JVal)
    (hnd : (dictKeys ts).Nodup)
    (hobj : ∀ p ∈ ts, objKeysNodupB p.2 = true)
    (hmem : (k, v) ∈ ts) :
    mergeConfigEntry (ts.foldl mergeConfigEntry ec) (k, v)
      = ts.foldl mergeConfigEntry ec := by
  set E := ts.foldl mergeConfigEntry ec with hE
  have hts : dictGet? ts k = some v := dictGet?_eq_some_of_mem_nodup ts k v hnd hmem
  have hget : dictGet? E k = some (mergeOne (dictGet? ec k) v) := by
    rw [hE, mergeConfig_get ts ec k hnd, hts]
  have hcont : dictContains E k = true := by
    rw [dictContains_iff_isSome, hget]
    rfl
  rw [mergeConfigEntry_of_contains E k v hcont, hget]
  rcases v with _ | s | q | b | xs | vk
  · rcases hx : dictGet? ec k with _ | w <;> rfl
  · rcases hx : dictGet? ec k with _ | w <;> rfl
  · rcases hx : dictGet? ec k with _ | w <;> rfl
  · rcases hx : dictGet? ec k with _ | w <;> rfl
  · rcases hx : dictGet? ec k with _ | w <;> rfl
  · have hvk : (dictKeys vk).Nodup := by
      have := hobj (k, JVal.obj vk) hmem
      simpa [objKeysNodupB] using this
    rcases hx : dictGet? ec k with _ | w
    · rw [hx] at hget
      simp only [mergeOne] at hget ⊢
      rw [dictUpdate_self_absorb vk hvk]
      exact dictSet_get_eq E k (JVal.obj vk) hget
    · rcases w with _ | ws | wq | wb | wxs | wk
      · rfl
      · rfl
      · rfl
      · rfl
      · rfl
      · rw [hx] at hget
        simp only [mergeOne] at hget ⊢
        rw [dictUpdate_update_absorb vk wk hvk]
        exact dictSet_get_eq E k (JVal.obj (dictUpdate vk wk)) hget

lemma foldl_mergeConfigEntry_of_absorbed (ts ec1 : PyDict)
    (hid : ∀ p ∈ ts, mergeConfigEntry ec1 p = ec1) :
    ts.foldl mergeConfigEntry ec1 = ec1 := by
  induction ts with
  | nil => rfl
  | cons p rest ih =>
      rw [List.foldl_cons, hid p (List.mem_cons_self _ _)]
      exact ih (fun q hq => hid q (List.mem_cons_of_mem _ hq))

lemma lumen_theme_keys_nodup : (dictKeys LUMEN_THEME_config).Nodup := by decide

lemma lumen_theme_obj_nodup : ∀ p ∈ LUMEN_THEME_config, objKeysNodupB p.2 = true := by
  decide

/-- One merge pass over the theme is absorbed by a second. -/
lemma mergeConfig_idem (ec : PyDict) :
    (LUMEN_THEME_config.foldl mergeConfigEntry
      (LUMEN_THEME_config.foldl mergeConfigEntry ec))
      = LUMEN_THEME_config.foldl mergeConfigEntry ec := by
  refine foldl_mergeConfigEntry_of_absorbed _ _ (fun p hp => ?_)
  obtain ⟨k, v⟩ := p
  exact mergeConfigEntry_absorb LUMEN_THEME_config ec k v lumen_theme_keys_nodup
    lumen_theme_obj_nodup hp

lemma apply_theme_none (spec : PyDict)
    (hdict : pyDictOf ((dictGet? spec "config").getD (JVal.obj [])) = none) :
    apply_theme spec = none := by
  unfold apply_theme
  rw [hdict]

/-- Shape of a successful `apply_theme`: config replaced by the merged
config, `$schema` added when absent. -/
lemma apply_theme_eq (spec ec0 : PyDict)
    (hdict : pyDictOf ((dictGet? spec "config").getD (JVal.obj [])) = some ec0) :
    apply_theme spec
      = (if !(dictContains (dictSet spec "config"
              (JVal.obj (LUMEN_THEME_config.foldl mergeConfigEntry ec0))) "$schema") then
          some (dictSet (dictSet spec "config"
              (JVal.obj (LUMEN_THEME_config.foldl mergeConfigEntry ec0)))
            "$schema" (JVal.str DEFAULT_SCHEMA_URL))
        else
          some (dictSet spec "config"
            (JVal.obj (LUMEN_THEME_config.foldl mergeConfigEntry ec0)))) := by
  unfold apply_theme
  rw [hdict]

/-- A dict whose config is already one full theme-merge pass and which has a
`$schema` key is a fixed point of `apply_theme`. -/
lemma apply_theme_fixpoint (t ec1 ec0 : PyDict)
    (hconf : dictGet? t "config" = some (JVal.obj ec1))
    (hec1 : ec1 = LUMEN_THEME_config.foldl mergeConfigEntry ec0)
    (hschema : dictContains t "$schema" = true) :
    apply_theme t = some t := by
  have hdict : pyDictOf ((dictGet? t "config").getD (JVal.obj [])) = some ec1 := by
    rw [hconf]
    rfl
  rw [apply_theme_eq t ec1 hdict]
  have hfold : LUMEN_THEME_config.foldl mergeConfigEntry ec1 = ec1 := by
    rw [hec1]
    exact mergeConfig_idem ec0
  rw [hfold, dictSet_get_eq t "config" (JVal.obj ec1) hconf]
  simp [hschema]

/-- C10: `apply_theme` is idempotent — applying it twice equals applying it
once, for every dict spec: a second application changes no top-level key,
no config entry, and leaves `$schema` unchanged (and on the failing
non-dict-`config` inputs both sides raise the same `TypeError`). -/
theorem c10_apply_theme_idempotent (spec : PyDict) :
    (apply_theme spec).bind apply_theme = apply_theme spec := by
  rcases hdict : pyDictOf ((dictGet? spec "config").getD (JVal.obj [])) with _ | ec0
  · rw [apply_theme_none spec hdict]
    rfl
  · have heq := apply_theme_eq spec ec0 hdict
    by_cases hs : dictContains (dictSet spec "config"
        (JVal.obj (LUMEN_THEME_config.foldl mergeConfigEntry ec0))) "$schema"
    · have happlied : apply_theme spec
          = some (dictSet spec "config"
              (JVal.obj (LUMEN_THEME_config.foldl mergeConfigEntry ec0))) := by
        rw [heq]
        simp [hs]
      rw [happlied]
      show apply_theme _ = _
      exact apply_theme_fixpoint _ _ ec0 (dictGet?_set_self _ _ _) rfl hs
    · have happlied : apply_theme spec
          = some (dictSet (dictSet spec "config"
              (JVal.obj (LUMEN_THEME_config.foldl mergeConfigEntry ec0)))
              "$schema" (JVal.str DEFAULT_SCHEMA_URL)) := by
        rw [heq]
        simp [hs]
      rw [happlied]
      show apply_theme _ = _
      refine apply_theme_fixpoint _ _ ec0 ?_ rfl ?_
      · rw [dictGet?_set_ne _ "$schema" "config" _ (by decide)]
        exact dictGet?_set_self _ _ _
      · rw [dictContains_iff_isSome, dictGet?_set_self]
        rfl

/-- Concrete planner chart spec used by the C8 witness (valid against the
result columns, with one user config key). -/
def c8spec : PyDict :=
  [("mark", .str "bar"),
   ("encoding", .obj [("x", .obj [("field", .str "name")])]),
   ("config", .obj [("font", .str "Courier")])]

def c8result : CellResult := ⟨["name"], ["str"], 1, "", [], false, 0, []⟩

def c8schema : EnrichedSchema := ⟨[]⟩

/-- C8: a chart spec that validates against the final result's columns is
kept with only the theme merged (`auto_detected = false`), and the theme
merge is non-destructive: every top-level key other than `config` and
`$schema` keeps its value, `$schema` is added only when absent, the merged
`config` holds — key by key — the existing entry merged with the theme
default per `mergeOne` (theme entries only fill gaps), and inside a nested
dict-with-dict merge the existing entries win over theme defaults. -/
theorem c8_valid_spec_kept_with_theme_merge :
    (∀ (wi : Option WhatifInput) (cs : PyDict) (res : CellResult)
        (enr : EnrichedSchema) (themed : PyDict),
      (validate_chart_spec cs res.columns).ok = true →
      apply_theme cs = some themed →
      resolveChart false wi cs res enr = some (themed, false))
    ∧ (∀ (spec t : PyDict), apply_theme spec = some t →
        (∀ (k : String) (v : JVal), k ≠ "config" → k ≠ "$schema" →
          dictGet? spec k = some v → dictGet? t k = some v)
        ∧ (∀ s0, dictGet? spec "$schema" = some s0 → dictGet? t "$schema" = some s0)
        ∧ (dictGet? spec "$schema" = none →
            dictGet? t "$schema" = some (JVal.str DEFAULT_SCHEMA_URL))
        ∧ ∀ ec0, pyDictOf ((dictGet? spec "config").getD (JVal.obj [])) = some ec0 →
            ∃ ec1, dictGet? t "config" = some (JVal.obj ec1)
              ∧ ∀ c, dictGet? ec1 c
                  = match dictGet? LUMEN_THEME_config c with
                    | none => dictGet? ec0 c
                    | some v => some (mergeOne (dictGet? ec0 c) v))
    ∧ (∀ (vk wk : PyDict) (c : String), (dictKeys wk).Nodup →
        dictGet? (dictUpdate vk wk) c = ((dictGet? wk c).or (dictGet? vk c))) := by
  refine ⟨?_, ?_, fun vk wk c h => dictGet?_update vk wk c h⟩
  · intro wi cs res enr themed hok happ
    simp [resolveChart, hok, happ]
  · intro spec t happ
    rcases hdict : pyDictOf ((dictGet? spec "config").getD (JVal.obj [])) with _ | ec0
    · rw [apply_theme_none spec hdict] at happ
      cases happ
    · rw [apply_theme_eq spec ec0 hdict] at happ
      by_cases hs : dictContains (dictSet spec "config"
          (JVal.obj (LUMEN_THEME_config.foldl mergeConfigEntry ec0))) "$schema"
      · simp only [hs, Bool.not_true, Bool.false_eq_true, if_false,
          Option.some.injEq] at happ
        subst happ
        refine ⟨?_, ?_, ?_, ?_⟩
        · intro k v hk _ hv
          rw [dictGet?_set_ne spec "config" k _ (fun hh => hk hh.symm)]
          exact hv
        · intro s0 hv
          rw [dictGet?_set_ne spec "config" "$schema" _ (by decide)]
          exact hv
        · intro hnone
          have : dictContains (dictSet spec "config"
              (JVal.obj (LUMEN_THEME_config.foldl mergeConfigEntry ec0))) "$schema"
              = false := by
            rw [dictContains_iff_isSome,
              dictGet?_set_ne spec "config" "$schema" _ (by decide), hnone]
            rfl
          rw [this] at hs
          cases hs
        · intro ec0' hdict'
          injection hdict' with h0
          subst h0
          refine ⟨LUMEN_THEME_config.foldl mergeConfigEntry ec0,
            dictGet?_set_self spec "config" _, fun c => ?_⟩
          exact mergeConfig_get LUMEN_THEME_config ec0 c lumen_theme_keys_nodup
      · simp only [hs, Bool.not_false, if_true, Option.some.injEq] at happ
        subst happ
        refine ⟨?_, ?_, ?_, ?_⟩
        · intro k v hk hk2 hv
          rw [dictGet?_set_ne _ "$schema" k _ (fun hh => hk2 hh.symm),
            dictGet?_set_ne spec "config" k _ (fun hh => hk hh.symm)]
          exact hv
        · intro s0 hv
          have : dictContains (dictSet spec "config"
              (JVal.obj (LUMEN_THEME_config.foldl mergeConfigEntry ec0))) "$schema"
              = true := by
            rw [dictContains_iff_isSome,
              dictGet?_set_ne spec "config" "$schema" _ (by decide), hv]
            rfl
          rw [this] at hs
          exact absurd rfl hs
        · intro _
          exact dictGet?_set_self _ "$schema" _
        · intro ec0' hdict'
          injection hdict' with h0
          subst h0
          refine ⟨LUMEN_THEME_config.foldl mergeConfigEntry ec0, ?_, fun c => ?_⟩
          · rw [dictGet?_set_ne _ "$schema" "config" _ (by decide)]
            exact dictGet?_set_self spec "config" _
          · exact mergeConfig_get LUMEN_THEME_config ec0 c lumen_theme_keys_nodup

/-- C8, witness: a concrete bar spec valid against its columns is returned
themed and not auto-detected; its `mark` survives and `$schema` is added. -/
theorem c8_witness :
    resolveChart false none c8spec c8result c8schema
      = some ((apply_theme c8spec).getD [], false)
    ∧ dictGet? ((apply_theme c8spec).getD []) "mark" = some (JVal.str "bar")
    ∧ dictGet? ((apply_theme c8spec).getD []) "$schema"
        = some (JVal.str DEFAULT_SCHEMA_URL) := by
  have happ : apply_theme c8spec = some ((apply_theme c8spec).getD []) := by rfl
  have h := c8_valid_spec_kept_with_theme_merge
  refine ⟨h.1 none c8spec c8result c8schema _ (by rfl) happ, ?_, ?_⟩
  · exact (h.2.1 c8spec _ happ).1 "mark" (JVal.str "bar") (by decide) (by decide) (by rfl)
  · exact (h.2.1 c8spec _ happ).2.2.1 (by rfl)

/-! ### Auto-detection: C9 -/

/-- The classification loop always fills `measure_cols` and `numeric_cols`
together: every column classified numeric is also a measure. -/
lemma classify_measure_eq_numeric (l : List (String × String))
    (rm : List (String × String)) (acc : ColClasses)
    (h : acc.measure_cols = acc.numeric_cols) :
    (l.foldl (classifyStep rm) acc).measure_cols
      = (l.foldl (classifyStep rm) acc).numeric_cols := by
  induction l generalizing acc with
  | nil => exact h
  | cons p rest ih =>
      rw [List.foldl_cons]
      refine ih (classifyStep rm acc p) ?_
      unfold classifyStep
      dsimp only
      split_ifs <;> simp [h]

/-- Concrete enriched schema used by the C9 witness. -/
def c9schema : EnrichedSchema :=
  ⟨[⟨[⟨"month", "time_dimension"⟩, ⟨"region", "categorical"⟩,
     ⟨"revenue", "measure_candidate"⟩]⟩]⟩

/-- C9: the shape rules of `auto_detect_chart`, first match wins.  One time
column and one measure give a line chart on exactly those fields; one
categorical and one measure (no time) give a bar chart with the category on
x sorted `-y` (descending by the measure); no dimensions and exactly one
measure give the single-value display on that measure; two or more numeric
columns with no recognized dimension give a scatter on the first two.  The
first conjunct is the classifier invariant that numeric and measure columns
coincide, which grounds the scatter rule's hypothesis. -/
theorem c9_auto_detect_shape_rules :
    (∀ (columns column_types : List String) (rm : List (String × String)),
        (classifyCols columns column_types rm).measure_cols
          = (classifyCols columns column_types rm).numeric_cols)
    ∧ (∀ (columns column_types : List String) (enr : EnrichedSchema) (t m : String),
        classifyCols columns column_types (_build_role_map enr) = ⟨[t], [], [m], [m]⟩ →
        auto_detect_chart columns column_types enr = apply_theme (_line_spec t m))
    ∧ (∀ (columns column_types : List String) (enr : EnrichedSchema) (c m : String),
        classifyCols columns column_types (_build_role_map enr) = ⟨[], [c], [m], [m]⟩ →
        auto_detect_chart columns column_types enr = apply_theme (_bar_spec c m))
    ∧ (∀ (columns column_types : List String) (enr : EnrichedSchema) (m : String),
        classifyCols columns column_types (_build_role_map enr) = ⟨[], [], [m], [m]⟩ →
        auto_detect_chart columns column_types enr = apply_theme (_kpi_spec m))
    ∧ (∀ (columns column_types : List String) (enr : EnrichedSchema)
        (n1 n2 : String) (ns : List String),
        classifyCols columns column_types (_build_role_map enr)
          = ⟨[], [], n1 :: n2 :: ns, n1 :: n2 :: ns⟩ →
        auto_detect_chart columns column_types enr = apply_theme (_scatter_spec n1 n2)) := by
  refine ⟨?_, ?_, ?_, ?_, ?_⟩
  · intro columns column_types rm
    exact classify_measure_eq_numeric (columns.zip column_types) rm ⟨[], [], [], []⟩ rfl
  · intro columns column_types enr t m h
    simp [auto_detect_chart, h]
  · intro columns column_types enr c m h
    simp [auto_detect_chart, h]
  · intro columns column_types enr m h
    simp [auto_detect_chart, h]
  · intro columns column_types enr n1 n2 ns h
    simp [auto_detect_chart, h]

/-- C9, witness: the four shapes at concrete columns and roles. -/
theorem c9_witness :
    auto_detect_chart ["month", "revenue"] ["datetime", "float"] c9schema
      = apply_theme (_line_spec "month" "revenue")
    ∧ auto_detect_chart ["region", "revenue"] ["varchar", "float"] c9schema
      = apply_theme (_bar_spec "region" "revenue")
    ∧ auto_detect_chart ["revenue"] ["float"] c9schema
      = apply_theme (_kpi_spec "revenue")
    ∧ auto_detect_chart ["x1", "x2"] ["float", "float"] c9schema
      = apply_theme (_scatter_spec "x1" "x2") := by
  have h := c9_auto_detect_shape_rules
  exact ⟨h.2.1 _ _ c9schema "month" "revenue" (by rfl),
    h.2.2.1 _ _ c9schema "region" "revenue" (by rfl),
    h.2.2.2.1 _ _ c9schema "revenue" (by rfl),
    h.2.2.2.2 _ _ c9schema "x1" "x2" [] (by rfl)⟩

/-! ### Orchestrator: C2, C3, C4 -/

lemma countTerminal_append (a b : List SSEEvent) :
    countTerminal (a ++ b) = countTerminal a + countTerminal b := by
  simp [countTerminal, List.filter_append]

lemma countStage_append (s : String) (a b : List SSEEvent) :
    countStage s (a ++ b) = countStage s a + countStage s b := by
  simp [countStage, List.filter_append]

lemma cellEvents_append (a b : List SSEEvent) :
    cellEvents (a ++ b) = cellEvents a ++ cellEvents b := by
  simp [cellEvents]

lemma runStream_append (st : StreamState) (a b : List SSEEvent) :
    runStream st (a ++ b) = runStream (runStream st a) b := by
  induction a generalizing st with
  | nil => rfl
  | cons e rest ih => simp [runStream, ih]

lemma streamStep_inLoop_error (f : Nat) (c m : String) :
    streamStep (StreamState.inLoop f) (SSEEvent.error c m) = StreamState.done := by
  cases f <;> rfl

lemma streamStep_inLoop_executing (f : Nat) :
    streamStep (StreamState.inLoop f) (SSEEvent.stage "executing")
      = StreamState.executed f := by
  cases f <;> rfl

lemma streamStep_executed_error (f : Nat) (c m : String) :
    streamStep (StreamState.executed f) (SSEEvent.error c m) = StreamState.done := by
  cases f <;> rfl

lemma streamStep_executed_projecting (f : Nat) :
    streamStep (StreamState.executed f) (SSEEvent.stage "projecting")
      = StreamState.projected := by
  cases f <;> rfl

lemma streamStep_executed_narrating (f : Nat) :
    streamStep (StreamState.executed f) (SSEEvent.stage "narrating")
      = StreamState.narrated := by
  cases f <;> rfl

lemma askLoop_plan_none (env : AgentEnv) (attempt fuel rc : Nat) (steps : List String)
    (ec : Nat) (hp : env.plan attempt = none) :
    askLoop env attempt fuel rc steps ec
      = ([SSEEvent.error "AGENT_ERROR" "LLM did not return a plan_query tool call"],
         none) := by
  cases fuel <;> (conv_lhs => unfold askLoop) <;> rw [hp]

lemma askLoop_val_fail_step (env : AgentEnv) (attempt f rc : Nat) (steps : List String)
    (ec : Nat) (ti : PlanInput) (hp : env.plan attempt = some ti)
    (hv : (validate_sql env.parse ti.sql).ok = false) :
    askLoop env attempt (f + 1) rc steps ec
      = (SSEEvent.stage "correcting"
           :: (askLoop env (attempt + 1) f (rc + 1) (steps ++ ["correcting"]) ec).1,
         (askLoop env (attempt + 1) f (rc + 1) (steps ++ ["correcting"]) ec).2) := by
  conv_lhs => unfold askLoop
  rw [hp]
  simp [hv]

lemma askLoop_val_fail_last (env : AgentEnv) (attempt rc : Nat) (steps : List String)
    (ec : Nat) (ti : PlanInput) (hp : env.plan attempt = some ti)
    (hv : (validate_sql env.parse ti.sql).ok = false) :
    askLoop env attempt 0 rc steps ec
      = ([SSEEvent.error "AGENT_ERROR"
           ("SQL validation failed after " ++ toString MAX_RETRIES ++ " retries: "
             ++ String.intercalate "; "
                  ((validate_sql env.parse ti.sql).diagnostics.map Diag.message))],
         none) := by
  conv_lhs => unfold askLoop
  rw [hp]
  simp [hv]

lemma askLoop_exec_fail_step (env : AgentEnv) (attempt f rc : Nat) (steps : List String)
    (ec : Nat) (ti : PlanInput) (hp : env.plan attempt = some ti)
    (hv : (validate_sql env.parse ti.sql).ok = true)
    (he : (env.exec ec).has_errors = true) :
    askLoop env attempt (f + 1) rc steps ec
      = (SSEEvent.stage "executing" :: SSEEvent.stage "correcting"
           :: (askLoop env (attempt + 1) f (rc + 1)
                 (steps ++ ["executing", "correcting"]) (ec + 1)).1,
         (askLoop env (attempt + 1) f (rc + 1)
            (steps ++ ["executing", "correcting"]) (ec + 1)).2) := by
  conv_lhs => unfold askLoop
  rw [hp]
  simp [hv, he]

lemma askLoop_exec_fail_last (env : AgentEnv) (attempt rc : Nat) (steps : List String)
    (ec : Nat) (ti : PlanInput) (hp : env.plan attempt = some ti)
    (hv : (validate_sql env.parse ti.sql).ok = true)
    (he : (env.exec ec).has_errors = true) :
    askLoop env attempt 0 rc steps ec
      = ([SSEEvent.stage "executing",
          SSEEvent.error "AGENT_ERROR"
            ("SQL execution failed after " ++ toString MAX_RETRIES ++ " retries: "
              ++ String.intercalate "; "
                   (((env.exec ec).diagnostics.filter
                      (fun d => d.severity == Severity.error)).map Diag.message))],
         none) := by
  conv_lhs => unfold askLoop
  rw [hp]
  simp [hv, he]

lemma askLoop_success (env : AgentEnv) (attempt fuel rc : Nat) (steps : List String)
    (ec : Nat) (ti : PlanInput) (hp : env.plan attempt = some ti)
    (hv : (validate_sql env.parse ti.sql).ok = true)
    (he : (env.exec ec).has_errors = false) :
    askLoop env attempt fuel rc steps ec
      = ([SSEEvent.stage "executing"],
         some ⟨ti.reasoning, ti.sql, ti.chart_spec, ti.whatif, env.exec ec, rc,
               steps ++ ["executing"], ec + 1⟩) := by
  cases fuel <;> (conv_lhs => unfold askLoop) <;> rw [hp] <;> simp [hv, he]

lemma countTerminal_cons_stage (s : String) (l : List SSEEvent) :
    countTerminal (SSEEvent.stage s :: l) = countTerminal l := by
  simp [countTerminal, List.filter, isTerminal]

lemma countTerminal_cons_error (c m : String) (l : List SSEEvent) :
    countTerminal (SSEEvent.error c m :: l) = countTerminal l + 1 := by
  simp [countTerminal, List.filter, isTerminal]

lemma countTerminal_cons_cell (c : Cell) (l : List SSEEvent) :
    countTerminal (SSEEvent.cell c :: l) = countTerminal l + 1 := by
  simp [countTerminal, List.filter, isTerminal]

lemma countStage_cons_same (s : String) (l : List SSEEvent) :
    countStage s (SSEEvent.stage s :: l) = countStage s l + 1 := by
  simp [countStage, List.filter]

lemma countStage_cons_other (s s' : String) (l : List SSEEvent) (h : s' ≠ s) :
    countStage s (SSEEvent.stage s' :: l) = countStage s l := by
  simp [countStage, List.filter, h]

lemma countStage_cons_error (s c m : String) (l : List SSEEvent) :
    countStage s (SSEEvent.error c m :: l) = countStage s l := by
  simp [countStage, List.filter]

lemma countStage_cons_cell (s : String) (c : Cell) (l : List SSEEvent) :
    countStage s (SSEEvent.cell c :: l) = countStage s l := by
  simp [countStage, List.filter]

lemma cellEvents_cons_stage (s : String) (l : List SSEEvent) :
    cellEvents (SSEEvent.stage s :: l) = cellEvents l := by
  simp [cellEvents]

lemma cellEvents_cons_error (c m : String) (l : List SSEEvent) :
    cellEvents (SSEEvent.error c m :: l) = cellEvents l := by
  simp [cellEvents]

lemma cellEvents_cons_cell (c : Cell) (l : List SSEEvent) :
    cellEvents (SSEEvent.cell c :: l) = c :: cellEvents l := by
  simp [cellEvents]

/-- Behaviour of the retry loop: a `none` outcome is a stream the automaton
drives from `inLoop fuel` to `done` and that ends in its sole terminal
(error) event; a success outcome is an all-stage stream landing on
`executed`, whose state's `retry_count` is the entry count plus the number
of `correcting` events; at most `fuel` corrections are emitted, and no
`projecting`, `narrating`-terminal or `cell` events arise in the loop. -/
lemma askLoop_spec (env : AgentEnv) :
    ∀ (fuel attempt retry_count : Nat) (steps : List String) (ec : Nat),
    ((askLoop env attempt fuel retry_count steps ec).2 = none →
        runStream (StreamState.inLoop fuel)
            (askLoop env attempt fuel retry_count steps ec).1 = StreamState.done
        ∧ ∃ pre code msg,
            (askLoop env attempt fuel retry_count steps ec).1
              = pre ++ [SSEEvent.error code msg]
            ∧ countTerminal pre = 0)
    ∧ (∀ st, (askLoop env attempt fuel retry_count steps ec).2 = some st →
        (∃ f, runStream (StreamState.inLoop fuel)
            (askLoop env attempt fuel retry_count steps ec).1 = StreamState.executed f)
        ∧ countTerminal (askLoop env attempt fuel retry_count steps ec).1 = 0
        ∧ st.retry_count = retry_count
            + countStage "correcting" (askLoop env attempt fuel retry_count steps ec).1)
    ∧ countStage "correcting" (askLoop env attempt fuel retry_count steps ec).1 ≤ fuel
    ∧ countStage "projecting" (askLoop env attempt fuel retry_count steps ec).1 = 0
    ∧ cellEvents (askLoop env attempt fuel retry_count steps ec).1 = [] := by
  intro fuel
  induction fuel with
  | zero =>
      intro attempt rc steps ec
      rcases hp : env.plan attempt with _ | ti
      · rw [askLoop_plan_none env attempt 0 rc steps ec hp]
        refine ⟨fun _ => ⟨by simp [runStream, streamStep_inLoop_error], ⟨[], _, _, rfl, rfl⟩⟩,
          fun st hst => by simp at hst, by simp [countStage_cons_error, countStage], ?_, ?_⟩
        · simp [countStage_cons_error, countStage]
        · simp [cellEvents_cons_error, cellEvents]
      · by_cases hv : (validate_sql env.parse ti.sql).ok = false
        · rw [askLoop_val_fail_last env attempt rc steps ec ti hp hv]
          refine ⟨fun _ => ⟨by simp [runStream, streamStep_inLoop_error], ⟨[], _, _, rfl, rfl⟩⟩,
            fun st hst => by simp at hst, ?_, ?_, ?_⟩
          · simp [countStage_cons_error, countStage]
          · simp [countStage_cons_error, countStage]
          · simp [cellEvents_cons_error, cellEvents]
        · have hv' : (validate_sql env.parse ti.sql).ok = true := by
            simpa using hv
          by_cases he : (env.exec ec).has_errors
          · rw [askLoop_exec_fail_last env attempt rc steps ec ti hp hv' he]
            refine ⟨fun _ => ⟨?_, ⟨[SSEEvent.stage "executing"], _, _, rfl, rfl⟩⟩,
              fun st hst => by simp at hst, ?_, ?_, ?_⟩
            · simp [runStream, streamStep_inLoop_executing, streamStep_executed_error]
            · simp [countStage_cons_error, countStage_cons_other, countStage]
            · simp [countStage_cons_error, countStage_cons_other, countStage]
            · simp [cellEvents_cons_error, cellEvents_cons_stage, cellEvents]
          · have he' : (env.exec ec).has_errors = false := by simpa using he
            rw [askLoop_success env attempt 0 rc steps ec ti hp hv' he']
            refine ⟨fun h => by simp at h, fun st hst => ?_, ?_, ?_, ?_⟩
            · simp only [Option.some.injEq] at hst
              subst hst
              refine ⟨⟨0, by simp [runStream, streamStep_inLoop_executing]⟩, rfl, by
                simp [countStage, List.filter]⟩
            · simp [countStage_cons_other, countStage]
            · simp [countStage_cons_other, countStage]
            · simp [cellEvents_cons_stage, cellEvents]
  | succ f ih =>
      intro attempt rc steps ec
      rcases hp : env.plan attempt with _ | ti
      · rw [askLoop_plan_none env attempt (f + 1) rc steps ec hp]
        refine ⟨fun _ => ⟨by simp [runStream, streamStep_inLoop_error], ⟨[], _, _, rfl, rfl⟩⟩,
          fun st hst => by simp at hst, ?_, ?_, ?_⟩
        · simp [countStage_cons_error, countStage]
        · simp [countStage_cons_error, countStage]
        · simp [cellEvents_cons_error, cellEvents]
      · by_cases hv : (validate_sql env.parse ti.sql).ok = false
        · rw [askLoop_val_fail_step env attempt f rc steps ec ti hp hv]
          obtain ⟨ih1, ih2, ih3, ih4, ih5⟩ := ih (attempt + 1) (rc + 1) (steps ++ ["correcting"]) ec
          refine ⟨fun h => ?_, fun st hst => ?_, ?_, ?_, ?_⟩
          · obtain ⟨hrun, pre, code, msg, hpre, hterm⟩ := ih1 h
            refine ⟨?_, SSEEvent.stage "correcting" :: pre, code, msg, by simp [hpre], ?_⟩
            · simpa [runStream] using hrun
            · simpa [countTerminal_cons_stage] using hterm
          · obtain ⟨⟨f2, hrun⟩, hterm, hretry⟩ := ih2 st hst
            refine ⟨⟨f2, by simpa [runStream] using hrun⟩, ?_, ?_⟩
            · simpa [countTerminal_cons_stage] using hterm
            · rw [countStage_cons_same]
              omega
          · rw [countStage_cons_same]
            omega
          · rw [countStage_cons_other "projecting" "correcting" _ (by decide)]
            exact ih4
          · rw [cellEvents_cons_stage]
            exact ih5
        · have hv' : (validate_sql env.parse ti.sql).ok = true := by simpa using hv
          by_cases he : (env.exec ec).has_errors
          · rw [askLoop_exec_fail_step env attempt f rc steps ec ti hp hv' he]
            obtain ⟨ih1, ih2, ih3, ih4, ih5⟩ :=
              ih (attempt + 1) (rc + 1) (steps ++ ["executing", "correcting"]) (ec + 1)
            refine ⟨fun h => ?_, fun st hst => ?_, ?_, ?_, ?_⟩
            · obtain ⟨hrun, pre, code, msg, hpre, hterm⟩ := ih1 h
              refine ⟨?_,
                SSEEvent.stage "executing" :: SSEEvent.stage "correcting" :: pre,
                code, msg, by simp [hpre], ?_⟩
              · simpa [runStream, streamStep_inLoop_executing] using hrun
              · simpa [countTerminal_cons_stage] using hterm
            · obtain ⟨⟨f2, hrun⟩, hterm, hretry⟩ := ih2 st hst
              refine ⟨⟨f2, by simpa [runStream, streamStep_inLoop_executing] using hrun⟩, ?_, ?_⟩
              · simpa [countTerminal_cons_stage] using hterm
              · rw [countStage_cons_other "correcting" "executing" _ (by decide),
                  countStage_cons_same]
                omega
            · rw [countStage_cons_other "correcting" "executing" _ (by decide),
                countStage_cons_same]
              omega
            · rw [countStage_cons_other "projecting" "executing" _ (by decide),
                countStage_cons_other "projecting" "correcting" _ (by decide)]
              exact ih4
            · rw [cellEvents_cons_stage, cellEvents_cons_stage]
              exact ih5
          · have he' : (env.exec ec).has_errors = false := by simpa using he
            rw [askLoop_success env attempt (f + 1) rc steps ec ti hp hv' he']
            refine ⟨fun h => by simp at h, fun st hst => ?_, ?_, ?_, ?_⟩
            · simp only [Option.some.injEq] at hst
              subst hst
              refine ⟨⟨f + 1, by simp [runStream, streamStep_inLoop_executing]⟩, rfl, by
                simp [countStage, List.filter]⟩
            · simp [countStage_cons_other, countStage]
            · simp [countStage_cons_other, countStage]
            · simp [cellEvents_cons_stage, cellEvents]

/-- `finishAsk` either aborts with the theme `TypeError` leaving the events
as they are, or appends `narrating` and the single cell event, whose
`retry_count` is the one handed in. -/
lemma finishAsk_shape (env : AgentEnv) (events : List SSEEvent) (steps : List String)
    (rc : Nat) (reasoning sql : String) (cs : PyDict) (wi : Option WhatifInput)
    (iw : Bool) (meta : Option WhatIfMetadata) (res : CellResult) :
    (∃ msg, finishAsk env events steps rc reasoning sql cs wi iw meta res
        = ⟨events, some msg⟩)
    ∨ (∃ c, finishAsk env events steps rc reasoning sql cs wi iw meta res
        = ⟨events ++ [SSEEvent.stage "narrating", SSEEvent.cell c], none⟩
        ∧ c.metadata.retry_count = rc) := by
  unfold finishAsk
  rcases h : resolveChart iw wi cs res env.enriched with _ | ⟨spec, ad⟩
  · exact Or.inl ⟨_, rfl⟩
  · exact Or.inr ⟨_, rfl, rfl⟩

/-- The what-if branch either raises (pydantic `ValidationError`) right
after `projecting`, or reaches `finishAsk` having emitted at most one
`projecting` stage event and preserving the loop's `retry_count`. -/
lemma askWhatif_shape (env : AgentEnv) (st : PlanSuccess) (cr : CellResult)
    (events : List SSEEvent) :
    (∃ msg, askWhatif env st cr events
        = ⟨events ++ [SSEEvent.stage "projecting"], some msg⟩)
    ∨ (∃ proj steps2 sql2 cs2 iw2 meta2 cr2,
        (proj = ([] : List SSEEvent) ∨ proj = [SSEEvent.stage "projecting"])
        ∧ askWhatif env st cr events
            = finishAsk env (events ++ proj) steps2 st.retry_count st.reasoning sql2
                cs2 st.whatif_input iw2 meta2 cr2) := by
  unfold askWhatif
  split
  · split
    · split
      · exact Or.inl ⟨_, rfl⟩
      · split
        · split
          · split
            · split
              · exact Or.inr ⟨[SSEEvent.stage "projecting"], _, _, _, _, _, _, Or.inr rfl, rfl⟩
              · exact Or.inr ⟨[SSEEvent.stage "projecting"], _, _, _, _, _, _, Or.inr rfl, rfl⟩
            · exact Or.inr ⟨[SSEEvent.stage "projecting"], _, _, _, _, _, _, Or.inr rfl, rfl⟩
          · exact Or.inr ⟨[SSEEvent.stage "projecting"], _, _, _, _, _, _, Or.inr rfl, rfl⟩
        · exact Or.inr ⟨[SSEEvent.stage "projecting"], _, _, _, _, _, _, Or.inr rfl, rfl⟩
    · refine Or.inr ⟨[], st.agent_steps, st.sql, st.chart_spec, false, none, cr,
        Or.inl rfl, ?_⟩
      simp
  · refine Or.inr ⟨[], st.agent_steps, st.sql, st.chart_spec, false, none, cr,
      Or.inl rfl, ?_⟩
    simp

/-- Case analysis of one `ask_question` run past the API-key check: the
stream is `thinking` followed by the loop events, then one of the possible
tails. -/
lemma ask_question_shape (env : AgentEnv) (hkey : env.api_key_present = true) :
    ∃ evs out,
      askLoop env 0 MAX_RETRIES 0 ["thinking"] 0 = (evs, out)
      ∧ ((out = none ∧ ask_question env = ⟨SSEEvent.stage "thinking" :: evs, none⟩)
        ∨ (∃ st : PlanSuccess, out = some st
            ∧ (ask_question env
                = ⟨SSEEvent.stage "thinking"
                    :: (evs ++ [SSEEvent.error "AGENT_ERROR" "No result data from execution"]),
                   none⟩
              ∨ (∃ msg, ask_question env
                  = ⟨(SSEEvent.stage "thinking" :: evs) ++ [SSEEvent.stage "projecting"],
                     some msg⟩)
              ∨ (∃ proj msg, (proj = ([] : List SSEEvent) ∨ proj = [SSEEvent.stage "projecting"])
                  ∧ ask_question env
                      = ⟨(SSEEvent.stage "thinking" :: evs) ++ proj, some msg⟩)
              ∨ (∃ proj c, (proj = ([] : List SSEEvent) ∨ proj = [SSEEvent.stage "projecting"])
                  ∧ ask_question env
                      = ⟨(SSEEvent.stage "thinking" :: evs) ++ proj
                          ++ [SSEEvent.stage "narrating", SSEEvent.cell c], none⟩
                  ∧ c.metadata.retry_count = st.retry_count)))) := by
  rcases hl : askLoop env 0 MAX_RETRIES 0 ["thinking"] 0 with ⟨evs, out⟩
  refine ⟨evs, out, rfl, ?_⟩
  have hask : ask_question env
      = match askLoop env 0 MAX_RETRIES 0 ["thinking"] 0 with
        | (events1, none) => ⟨SSEEvent.stage "thinking" :: events1, none⟩
        | (events1, some st) =>
          match st.exec_result.data with
          | none =>
              ⟨SSEEvent.stage "thinking"
                 :: (events1 ++ [SSEEvent.error "AGENT_ERROR" "No result data from execution"]),
               none⟩
          | some cell_result =>
              askWhatif env st cell_result (SSEEvent.stage "thinking" :: events1) := by
    unfold ask_question
    rw [if_neg (by simp [hkey])]
  rw [hl] at hask
  rcases out with _ | st
  · exact Or.inl ⟨rfl, hask⟩
  · refine Or.inr ⟨st, rfl, ?_⟩
    have hask2 : ask_question env
        = match st.exec_result.data with
          | none =>
              ⟨SSEEvent.stage "thinking"
                 :: (evs ++ [SSEEvent.error "AGENT_ERROR" "No result data from execution"]),
               none⟩
          | some cell_result =>
              askWhatif env st cell_result (SSEEvent.stage "thinking" :: evs) := hask
    clear hask
    rcases hdata : st.exec_result.data with _ | cr
    · rw [hdata] at hask2
      exact Or.inl hask2
    · rw [hdata] at hask2
      have hask : ask_question env
          = askWhatif env st cr (SSEEvent.stage "thinking" :: evs) := hask2
      rcases askWhatif_shape env st cr (SSEEvent.stage "thinking" :: evs) with
        ⟨msg, hw⟩ | ⟨proj, steps2, sql2, cs2, iw2, meta2, cr2, hproj, hw⟩
      · exact Or.inr (Or.inl ⟨msg, by rw [hask, hw]⟩)
      · rcases finishAsk_shape env ((SSEEvent.stage "thinking" :: evs) ++ proj) steps2
          st.retry_count st.reasoning sql2 cs2 st.whatif_input iw2 meta2 cr2 with
          ⟨msg, hf⟩ | ⟨c, hf, hrc⟩
        · exact Or.inr (Or.inr (Or.inl ⟨proj, msg, hproj, by rw [hask, hw, hf]⟩))
        · refine Or.inr (Or.inr (Or.inr ⟨proj, c, hproj, ?_, hrc⟩))
          rw [hask, hw, hf]

/-- When the planner always answers and every execution errors, the loop
consumes its whole budget: one `correcting` per unit of fuel, outcome
`none`, and the events end in a single terminal error. -/
lemma askLoop_all_fail (env : AgentEnv)
    (hplan : ∀ i, (env.plan i).isSome = true)
    (hexec : ∀ n, (env.exec n).has_errors = true) :
    ∀ fuel attempt rc : Nat, ∀ steps : List String, ∀ ec : Nat,
      (askLoop env attempt fuel rc steps ec).2 = none
      ∧ countStage "correcting" (askLoop env attempt fuel rc steps ec).1 = fuel
      ∧ ∃ pre code msg,
          (askLoop env attempt fuel rc steps ec).1 = pre ++ [SSEEvent.error code msg]
          ∧ countTerminal pre = 0 := by
  intro fuel
  induction fuel with
  | zero =>
      intro attempt rc steps ec
      rcases hp : env.plan attempt with _ | ti
      · have := hplan attempt
        rw [hp] at this
        simp at this
      · by_cases hv : (validate_sql env.parse ti.sql).ok = false
        · rw [askLoop_val_fail_last env attempt rc steps ec ti hp hv]
          exact ⟨rfl, by simp [countStage_cons_error, countStage],
            ⟨[], _, _, rfl, rfl⟩⟩
        · have hv' : (validate_sql env.parse ti.sql).ok = true := by simpa using hv
          rw [askLoop_exec_fail_last env attempt rc steps ec ti hp hv' (hexec ec)]
          refine ⟨rfl, ?_, ⟨[SSEEvent.stage "executing"], _, _, rfl, rfl⟩⟩
          simp [countStage_cons_error, countStage_cons_other, countStage]
  | succ f ih =>
      intro attempt rc steps ec
      rcases hp : env.plan attempt with _ | ti
      · have := hplan attempt
        rw [hp] at this
        simp at this
      · by_cases hv : (validate_sql env.parse ti.sql).ok = false
        · rw [askLoop_val_fail_step env attempt f rc steps ec ti hp hv]
          obtain ⟨ih1, ih2, pre, code, msg, hpre, hterm⟩ :=
            ih (attempt + 1) (rc + 1) (steps ++ ["correcting"]) ec
          refine ⟨ih1, ?_,
            ⟨SSEEvent.stage "correcting" :: pre, code, msg, by simp [hpre], ?_⟩⟩
          · rw [countStage_cons_same]
            omega
          · simpa [countTerminal_cons_stage] using hterm
        · have hv' : (validate_sql env.parse ti.sql).ok = true := by simpa using hv
          rw [askLoop_exec_fail_step env attempt f rc steps ec ti hp hv' (hexec ec)]
          obtain ⟨ih1, ih2, pre, code, msg, hpre, hterm⟩ :=
            ih (attempt + 1) (rc + 1) (steps ++ ["executing", "correcting"]) (ec + 1)
          refine ⟨ih1, ?_,
            ⟨SSEEvent.stage "executing" :: SSEEvent.stage "correcting" :: pre, code, msg,
             by simp [hpre], ?_⟩⟩
          · rw [countStage_cons_other "correcting" "executing" _ (by decide),
              countStage_cons_same]
            omega
          · simpa [countTerminal_cons_stage] using hterm

/-- A stream opening with `thinking` is accepted as soon as the rest drives
the automaton from `inLoop MAX_RETRIES` to `done`. -/
lemma streamAccepts_of_thinking (evs : List SSEEvent)
    (h : runStream (StreamState.inLoop MAX_RETRIES) evs = StreamState.done) :
    streamAccepts (SSEEvent.stage "thinking" :: evs) = true := by
  have h2 : runStream StreamState.start (SSEEvent.stage "thinking" :: evs)
      = StreamState.done := h
  simp [streamAccepts, h2]

/-- Stand-in for `pglast.parse_sql` succeeding with a single clean SELECT
statement (what the parser returns on the baseline queries used below). -/
def parseSelectOk : String → Except String (List Node) :=
  fun _ => Except.ok [Node.mk "SelectStmt" []]

/-- A what-if request for `trend_extrapolation` with the out-of-range
`periods_ahead = 0`. -/
def c2wi : WhatifInput :=
  ⟨some "trend_extrapolation", some "t", some "v", some 0, some "month"⟩

def c2result : CellResult := ⟨["t", "v"], ["timestamp", "numeric"], 2, "", [], false, 0, []⟩

def c2plan : PlanInput := ⟨"baseline", "SELECT t, v FROM x", c8spec, some c2wi⟩

/-- A run whose baseline plan validates and executes cleanly but whose
what-if input carries `periods_ahead = 0`. -/
def c2env : AgentEnv :=
  ⟨true, fun _ => some c2plan, parseSelectOk, fun _ => ⟨some c2result, []⟩,
   ("narr", []), c8schema, "claude", "what if zero periods", none⟩

def c2okplan : PlanInput := ⟨"baseline", "SELECT name FROM t", c8spec, none⟩

/-- A fully successful run: valid plan, clean execution, no what-if. -/
def c2okenv : AgentEnv :=
  ⟨true, fun _ => some c2okplan, parseSelectOk, fun _ => ⟨some c8result, []⟩,
   ("The rows.", []), c8schema, "claude", "list names", none⟩

def c3plan : PlanInput := ⟨"try again", "SELECT t, v FROM x", c8spec, none⟩

def c3failresult : Result CellResult :=
  ⟨none, [⟨Severity.error, "EXEC_ERROR", "relation x does not exist", none⟩]⟩

/-- A run in which the planner always answers but every execution fails. -/
def c3failenv : AgentEnv :=
  ⟨true, fun _ => some c3plan, parseSelectOk, fun _ => c3failresult,
   ("narr", []), c8schema, "claude", "list rows", none⟩

/-- The out-of-range what-if run examined for C4. -/
def c4env : AgentEnv :=
  { c2env with question := "what if we project zero periods ahead" }

/-- C2 counterexample: on a run whose baseline succeeds but whose what-if
input carries `periods_ahead = 0`, the generator aborts on the uncaught
pydantic `ValidationError` right after `projecting`: the stream is
`thinking, executing, projecting` with NO terminal event at all, so it does
not end with exactly one terminal event. -/
theorem c2_counterexample_whatif_raise :
    (ask_question c2env).events
      = [SSEEvent.stage "thinking", SSEEvent.stage "executing",
         SSEEvent.stage "projecting"]
    ∧ (ask_question c2env).raised
        = some "pydantic.ValidationError: periods_ahead out of range"
    ∧ countTerminal (ask_question c2env).events = 0 :=
  ⟨rfl, rfl, rfl⟩

/-- C2 (amended): on every invocation on which no exception escapes the
generator, the event stream follows the staged grammar — `thinking`, then
`correcting` (at most `MAX_RETRIES` times, interleaved with re-entry),
`executing`, at most one `projecting`, `narrating` — and ends with exactly
one terminal event (`cell` artifact or `error`), with no event of any kind
after the terminal one. -/
theorem c2_stage_event_protocol (env : AgentEnv)
    (hnone : (ask_question env).raised = none) :
    streamAccepts (ask_question env).events = true
    ∧ countTerminal (ask_question env).events = 1
    ∧ (∃ pre e, (ask_question env).events = pre ++ [e] ∧ isTerminal e = true
        ∧ countTerminal pre = 0)
    ∧ countStage "correcting" (ask_question env).events ≤ MAX_RETRIES
    ∧ countStage "projecting" (ask_question env).events ≤ 1 := by
  by_cases hkey : env.api_key_present = true
  · obtain ⟨evs, out, hl, hcases⟩ := ask_question_shape env hkey
    obtain ⟨spec1, spec2, spec3, spec4, spec5⟩ :=
      askLoop_spec env MAX_RETRIES 0 0 ["thinking"] 0
    have s3 : countStage "correcting" evs ≤ MAX_RETRIES := by
      have := spec3; rw [hl] at this; exact this
    have s4 : countStage "projecting" evs = 0 := by
      have := spec4; rw [hl] at this; exact this
    rcases hcases with ⟨hout, hq⟩ | ⟨st, hout, hdisj⟩
    · -- the loop failed: its last event is the sole terminal error
      have h1 := spec1
      rw [hl] at h1
      obtain ⟨hrun0, pre, code, msg, hpre0, hterm⟩ := h1 hout
      have hrun : runStream (StreamState.inLoop MAX_RETRIES) evs
          = StreamState.done := hrun0
      have hpre : evs = pre ++ [SSEEvent.error code msg] := hpre0
      rw [hq]
      refine ⟨streamAccepts_of_thinking evs hrun, ?_,
        ⟨SSEEvent.stage "thinking" :: pre, SSEEvent.error code msg, ?_, rfl, ?_⟩, ?_, ?_⟩
      · show countTerminal (SSEEvent.stage "thinking" :: evs) = 1
        rw [countTerminal_cons_stage, hpre, countTerminal_append, hterm]
        rfl
      · show SSEEvent.stage "thinking" :: evs
            = (SSEEvent.stage "thinking" :: pre) ++ [SSEEvent.error code msg]
        simp [hpre]
      · rw [countTerminal_cons_stage]
        exact hterm
      · show countStage "correcting" (SSEEvent.stage "thinking" :: evs) ≤ MAX_RETRIES
        rw [countStage_cons_other "correcting" "thinking" _ (by decide)]
        exact s3
      · show countStage "projecting" (SSEEvent.stage "thinking" :: evs) ≤ 1
        rw [countStage_cons_other "projecting" "thinking" _ (by decide)]
        simp [s4]
    · have h2 := spec2
      rw [hl] at h2
      obtain ⟨⟨f2, hrun0⟩, hterm0, _⟩ := h2 st hout
      have hrun : runStream (StreamState.inLoop MAX_RETRIES) evs
          = StreamState.executed f2 := hrun0
      have hterm : countTerminal evs = 0 := hterm0
      rcases hdisj with hq | ⟨msg, hq⟩ | ⟨proj, msg, hproj, hq⟩ | ⟨proj, c, hproj, hq, hrc⟩
      · -- execution produced no data: loop events then the sole error
        rw [hq]
        refine ⟨?_, ?_,
          ⟨SSEEvent.stage "thinking" :: evs,
           SSEEvent.error "AGENT_ERROR" "No result data from execution", rfl, rfl, ?_⟩,
          ?_, ?_⟩
        · refine streamAccepts_of_thinking _ ?_
          rw [runStream_append, hrun]
          exact streamStep_executed_error f2 _ _
        · show countTerminal (SSEEvent.stage "thinking"
              :: (evs ++ [SSEEvent.error "AGENT_ERROR" "No result data from execution"])) = 1
          rw [countTerminal_cons_stage, countTerminal_append, hterm]
          rfl
        · rw [countTerminal_cons_stage]
          exact hterm
        · show countStage "correcting" (SSEEvent.stage "thinking"
              :: (evs ++ [SSEEvent.error "AGENT_ERROR" "No result data from execution"]))
              ≤ MAX_RETRIES
          rw [countStage_cons_other "correcting" "thinking" _ (by decide),
            countStage_append]
          have hz : countStage "correcting"
              [SSEEvent.error "AGENT_ERROR" "No result data from execution"] = 0 := rfl
          omega
        · show countStage "projecting" (SSEEvent.stage "thinking"
              :: (evs ++ [SSEEvent.error "AGENT_ERROR" "No result data from execution"])) ≤ 1
          rw [countStage_cons_other "projecting" "thinking" _ (by decide),
            countStage_append, s4]
          decide
      · rw [hq] at hnone
        simp at hnone
      · rw [hq] at hnone
        simp at hnone
      · -- the artifact run: loop events, optional projecting, narrating, cell
        rw [hq]
        have hcellrun : runStream (StreamState.inLoop MAX_RETRIES)
            ((evs ++ proj) ++ [SSEEvent.stage "narrating", SSEEvent.cell c])
            = StreamState.done := by
          rcases hproj with h | h <;> subst h
          · show runStream (StreamState.inLoop MAX_RETRIES)
                ((evs ++ []) ++ [SSEEvent.stage "narrating", SSEEvent.cell c])
                = StreamState.done
            rw [List.append_nil, runStream_append, hrun]
            show runStream (streamStep (StreamState.executed f2)
                (SSEEvent.stage "narrating")) [SSEEvent.cell c] = StreamState.done
            rw [streamStep_executed_narrating]
            rfl
          · rw [runStream_append, runStream_append, hrun]
            show runStream (streamStep (StreamState.executed f2)
                (SSEEvent.stage "projecting"))
                [SSEEvent.stage "narrating", SSEEvent.cell c] = StreamState.done
            rw [streamStep_executed_projecting]
            rfl
        have hprojterm : countTerminal proj = 0 := by
          rcases hproj with h | h <;> subst h <;> rfl
        have hprojcor : countStage "correcting" proj = 0 := by
          rcases hproj with h | h <;> subst h <;> rfl
        have hprojpro : countStage "projecting" proj ≤ 1 := by
          rcases hproj with h | h <;> subst h <;> decide
        refine ⟨?_, ?_,
          ⟨(SSEEvent.stage "thinking" :: evs) ++ proj ++ [SSEEvent.stage "narrating"],
           SSEEvent.cell c, by simp, rfl, ?_⟩, ?_, ?_⟩
        · exact streamAccepts_of_thinking _ hcellrun
        · show countTerminal ((SSEEvent.stage "thinking" :: evs) ++ proj
              ++ [SSEEvent.stage "narrating", SSEEvent.cell c]) = 1
          rw [countTerminal_append, countTerminal_append, countTerminal_cons_stage,
            hterm, hprojterm]
          rfl
        · show countTerminal ((SSEEvent.stage "thinking" :: evs) ++ proj
              ++ [SSEEvent.stage "narrating"]) = 0
          rw [countTerminal_append, countTerminal_append, countTerminal_cons_stage,
            hterm, hprojterm]
          rfl
        · show countStage "correcting" ((SSEEvent.stage "thinking" :: evs) ++ proj
              ++ [SSEEvent.stage "narrating", SSEEvent.cell c]) ≤ MAX_RETRIES
          rw [countStage_append, countStage_append,
            countStage_cons_other "correcting" "thinking" _ (by decide), hprojcor]
          have hz : countStage "correcting"
              [SSEEvent.stage "narrating", SSEEvent.cell c] = 0 := rfl
          omega
        · show countStage "projecting" ((SSEEvent.stage "thinking" :: evs) ++ proj
              ++ [SSEEvent.stage "narrating", SSEEvent.cell c]) ≤ 1
          rw [countStage_append, countStage_append,
            countStage_cons_other "projecting" "thinking" _ (by decide), s4]
          have hz : countStage "projecting"
              [SSEEvent.stage "narrating", SSEEvent.cell c] = 0 := rfl
          omega
  · have hk : env.api_key_present = false := by
      cases h : env.api_key_present
      · rfl
      · exact absurd h hkey
    have hq : ask_question env
        = ⟨[SSEEvent.error "CONFIG_ERROR"
             "Missing API key: set ANTHROPIC_API_KEY environment variable"], none⟩ := by
      unfold ask_question
      rw [if_pos hk]
    rw [hq]
    exact ⟨rfl, rfl,
      ⟨[], SSEEvent.error "CONFIG_ERROR"
         "Missing API key: set ANTHROPIC_API_KEY environment variable", rfl, rfl, rfl⟩,
      by decide, by decide⟩

/-- C2 witness: the fully successful concrete run raises nothing, its
stream is accepted by the stage automaton and carries exactly one terminal
event. -/
theorem c2_witness :
    (ask_question c2okenv).raised = none
    ∧ streamAccepts (ask_question c2okenv).events = true
    ∧ countTerminal (ask_question c2okenv).events = 1 :=
  ⟨rfl, (c2_stage_event_protocol c2okenv rfl).1,
   (c2_stage_event_protocol c2okenv rfl).2.1⟩

/-- C3: the retry budget is one counter shared by validation and execution
failures.  `MAX_RETRIES = 3`; when the planner always answers and every
execution fails, the run emits exactly `MAX_RETRIES` `correcting` events
and then exactly one terminal event, the trailing error; and every emitted
artifact's `retry_count` equals the number of `correcting` round-trips in
its stream, which never exceeds `MAX_RETRIES`. -/
theorem c3_shared_retry_budget (env : AgentEnv)
    (hkey : env.api_key_present = true) :
    MAX_RETRIES = 3
    ∧ ((∀ i, (env.plan i).isSome = true) → (∀ n, (env.exec n).has_errors = true) →
        countStage "correcting" (ask_question env).events = MAX_RETRIES
        ∧ countTerminal (ask_question env).events = 1
        ∧ (∃ pre code msg,
            (ask_question env).events = pre ++ [SSEEvent.error code msg]
            ∧ countTerminal pre = 0))
    ∧ (∀ c, c ∈ cellEvents (ask_question env).events →
        c.metadata.retry_count = countStage "correcting" (ask_question env).events
        ∧ c.metadata.retry_count ≤ MAX_RETRIES) := by
  refine ⟨rfl, fun hplan hexec => ?_, fun c hc => ?_⟩
  · obtain ⟨hnone, hcnt0, pre, code, msg, hpre0, hterm⟩ :=
      askLoop_all_fail env hplan hexec MAX_RETRIES 0 0 ["thinking"] 0
    rcases hl : askLoop env 0 MAX_RETRIES 0 ["thinking"] 0 with ⟨evs, out⟩
    rw [hl] at hnone hcnt0 hpre0
    have hout : out = none := hnone
    have hcnt : countStage "correcting" evs = MAX_RETRIES := hcnt0
    have hpre : evs = pre ++ [SSEEvent.error code msg] := hpre0
    have hq : ask_question env = ⟨SSEEvent.stage "thinking" :: evs, none⟩ := by
      unfold ask_question
      rw [if_neg (by simp [hkey]), hl, hout]
    rw [hq]
    refine ⟨?_, ?_, ⟨SSEEvent.stage "thinking" :: pre, code, msg, ?_, ?_⟩⟩
    · show countStage "correcting" (SSEEvent.stage "thinking" :: evs) = MAX_RETRIES
      rw [countStage_cons_other "correcting" "thinking" _ (by decide)]
      exact hcnt
    · show countTerminal (SSEEvent.stage "thinking" :: evs) = 1
      rw [countTerminal_cons_stage, hpre, countTerminal_append, hterm]
      rfl
    · show SSEEvent.stage "thinking" :: evs
          = (SSEEvent.stage "thinking" :: pre) ++ [SSEEvent.error code msg]
      simp [hpre]
    · rw [countTerminal_cons_stage]
      exact hterm
  · obtain ⟨evs, out, hl, hcases⟩ := ask_question_shape env hkey
    obtain ⟨spec1, spec2, spec3, spec4, spec5⟩ :=
      askLoop_spec env MAX_RETRIES 0 0 ["thinking"] 0
    have s3 : countStage "correcting" evs ≤ MAX_RETRIES := by
      have := spec3; rw [hl] at this; exact this
    have s5 : cellEvents evs = [] := by
      have := spec5; rw [hl] at this; exact this
    rcases hcases with ⟨hout, hq⟩ | ⟨st, hout, hdisj⟩
    · rw [hq] at hc
      rw [show cellEvents (SSEEvent.stage "thinking" :: evs) = [] by
        rw [cellEvents_cons_stage, s5]] at hc
      simp at hc
    · have h2 := spec2
      rw [hl] at h2
      obtain ⟨_, _, hretry0⟩ := h2 st hout
      have hretry : st.retry_count = countStage "correcting" evs := by
        have := hretry0
        simpa using this
      rcases hdisj with hq | ⟨msg, hq⟩ | ⟨proj, msg, hproj, hq⟩ | ⟨proj, c2, hproj, hq, hrc⟩
      · rw [hq] at hc
        rw [show cellEvents (SSEEvent.stage "thinking"
              :: (evs ++ [SSEEvent.error "AGENT_ERROR" "No result data from execution"]))
            = [] by
          rw [cellEvents_cons_stage, cellEvents_append, s5]
          rfl] at hc
        simp at hc
      · rw [hq] at hc
        have hz : cellEvents ((SSEEvent.stage "thinking" :: evs)
            ++ [SSEEvent.stage "projecting"]) = [] := by
          rw [cellEvents_append, cellEvents_cons_stage, s5]
          rfl
        rw [hz] at hc
        simp at hc
      · have hprojcell : cellEvents proj = [] := by
          rcases hproj with h | h <;> subst h <;> rfl
        rw [hq] at hc
        have hz : cellEvents ((SSEEvent.stage "thinking" :: evs) ++ proj) = [] := by
          rw [cellEvents_append, cellEvents_cons_stage, s5, hprojcell]
          rfl
        rw [hz] at hc
        simp at hc
      · have hprojcell : cellEvents proj = [] := by
          rcases hproj with h | h <;> subst h <;> rfl
        have hprojcor : countStage "correcting" proj = 0 := by
          rcases hproj with h | h <;> subst h <;> rfl
        have hone : cellEvents ((SSEEvent.stage "thinking" :: evs) ++ proj
            ++ [SSEEvent.stage "narrating", SSEEvent.cell c2]) = [c2] := by
          rw [cellEvents_append, cellEvents_append, cellEvents_cons_stage, s5, hprojcell]
          rfl
        rw [hq] at hc
        rw [hone] at hc
        have hcc : c = c2 := by simpa using hc
        subst hcc
        rw [hq]
        constructor
        · show c.metadata.retry_count
              = countStage "correcting" ((SSEEvent.stage "thinking" :: evs) ++ proj
                  ++ [SSEEvent.stage "narrating", SSEEvent.cell c])
          rw [countStage_append, countStage_append,
            countStage_cons_other "correcting" "thinking" _ (by decide), hprojcor]
          have hz : countStage "correcting"
              [SSEEvent.stage "narrating", SSEEvent.cell c] = 0 := rfl
          rw [hz, hrc, hretry]
          omega
        · rw [hrc, hretry]
          exact s3

/-- C3 witness: on the concrete always-failing run the loop burns all three
retries — three `correcting` events — and the stream carries exactly one
terminal event. -/
theorem c3_witness :
    c3failenv.api_key_present = true
    ∧ countStage "correcting" (ask_question c3failenv).events = MAX_RETRIES
    ∧ countTerminal (ask_question c3failenv).events = 1 :=
  ⟨rfl,
   ((c3_shared_retry_budget c3failenv rfl).2.1 (fun _ => rfl) (fun _ => rfl)).1,
   ((c3_shared_retry_budget c3failenv rfl).2.1 (fun _ => rfl) (fun _ => rfl)).2.1⟩

/-- C4: contrary to the silent-degradation contract, a what-if run with
`technique = trend_extrapolation` and out-of-range `periods_ahead = 0`
aborts: the uncaught pydantic `ValidationError` raised by the
`TrendParams` constructor escapes `ask_question` right after `projecting`,
no artifact carrying the baseline result is ever emitted, and
`build_trend_sql`'s own graceful `TREND_INVALID_PERIODS` diagnostic (which
would have degraded silently) is never reached. -/
theorem c4_whatif_out_of_range_raises :
    (ask_question c4env).raised
        = some "pydantic.ValidationError: periods_ahead out of range"
    ∧ countTerminal (ask_question c4env).events = 0
    ∧ cellEvents (ask_question c4env).events = []
    ∧ (build_trend_sql "SELECT t, v FROM x" ⟨"t", "v", 0, "month"⟩).data = none
    ∧ (build_trend_sql "SELECT t, v FROM x" ⟨"t", "v", 0, "month"⟩).diagnostics.map
        Diag.code = ["TREND_INVALID_PERIODS"] :=
  ⟨rfl, rfl, rfl, rfl, rfl⟩

end Lumen
